import Mathlib

/-!
Verification of the MPRIS endpoint state-synchronization engine
(`src/mpris/player.go`, `src/mpris/enum.go`, and the metadata decoder in
`src/unnamed/part_001`).  The Go code is shallowly embedded: D-Bus variant
values become the inductive `DBusValue`, Go maps `map[string]dbus.Variant`
become association lists with pairwise-distinct keys, machine integers become
`Int` with explicit two's-complement wrapping, and fallible Go functions
return `Except`.
-/

namespace Mpris

/-- Model of a type-erased D-Bus variant payload (`dbus.Variant.Value()`).
`str`, `int64`, `bool'`, `strList` and `dict` cover the dynamic types the
engine inspects; every other dynamic type is collapsed into `other`, which
fails every type assertion the code performs. -/
inductive DBusValue where
  | str (s : String)
  | int64 (n : Int)
  | bool' (b : Bool)
  | strList (l : List String)
  | dict (entries : List (String × DBusValue))
  | other

/-- Result of the Go type assertion `.(string)` on a variant value. -/
def DBusValue.asStr : DBusValue → Option String
  | .str s => some s
  | _ => none

/-- Result of the Go type assertion `.([]string)` on a variant value. -/
def DBusValue.asStrList : DBusValue → Option (List String)
  | .strList l => some l
  | _ => none

/-- Whether the top-level value is a `map[string]dbus.Variant`. -/
def DBusValue.isDict : DBusValue → Bool
  | .dict _ => true
  | _ => false

/-- Two's-complement narrowing to a signed 8-bit integer, the semantics of
Go's `int8(x)` conversion. -/
def wrap8 (x : Int) : Int := (x + 128) % 256 - 128

/-- Two's-complement wrapping to a signed 64-bit integer, the semantics of
Go `int64` arithmetic. -/
def wrap64 (x : Int) : Int := (x + 2 ^ 63) % 2 ^ 64 - 2 ^ 63

/-- Decimal digit test on a character. -/
def isDigitChar (c : Char) : Bool := decide ('0' ≤ c) && decide (c ≤ '9')

/-- Numeric value of a decimal digit character. -/
def digitVal (c : Char) : Option Nat :=
  if isDigitChar c then some (c.toNat - 48) else none

/-- Two-digit decimal field of an RFC-3339 timestamp. -/
def twoDigits (a b : Char) : Option Nat := do
  let x ← digitVal a
  let y ← digitVal b
  pure (10 * x + y)

/-- Gregorian leap-year rule, as in Go's `time` package. -/
def isLeapYear (y : Nat) : Bool := (y % 4 == 0 && y % 100 != 0) || y % 400 == 0

/-- Number of days in a month, as in Go's `time` package. -/
def daysInMonth (y m : Nat) : Nat :=
  if m == 2 then (if isLeapYear y then 29 else 28)
  else if m == 4 || m == 6 || m == 9 || m == 11 then 30
  else 31

/-- Zone suffix of an RFC-3339 timestamp: `Z` or a signed `hh:mm` offset
(the `Z07:00` part of Go's layout `2006-01-02T15:04:05Z07:00`). -/
def validZoneChars : List Char → Bool
  | ['Z'] => true
  | [sg, h1, h2, ':', m1, m2] =>
    (sg == '+' || sg == '-') && isDigitChar h1 && isDigitChar h2 &&
      isDigitChar m1 && isDigitChar m2
  | _ => false

/-- Optional fractional seconds (a dot followed by at least one digit)
followed by the zone suffix. -/
def validFracThenZone : List Char → Bool
  | '.' :: rest =>
    decide ((rest.takeWhile isDigitChar).length > 0) &&
      validZoneChars (rest.dropWhile isDigitChar)
  | l => validZoneChars l

/-- Modelled from the spec: the creation-timestamp attribute is "formatted as
an RFC-3339 timestamp string" and parsed with Go's `time.Parse` under the
`RFC3339` layout — library code that is not part of this repository.  The
model validates `YYYY-MM-DDTHH:MM:SS`, optional fractional seconds, and a
`Z`/`±hh:mm` zone, with Go's field range checks, and returns the calendar
year on success. -/
def parseRFC3339Year (s : String) : Option Int :=
  match s.toList with
  | y1 :: y2 :: y3 :: y4 :: '-' :: mo1 :: mo2 :: '-' :: d1 :: d2 :: 'T' ::
      h1 :: h2 :: ':' :: mi1 :: mi2 :: ':' :: s1 :: s2 :: rest => do
    let a ← digitVal y1
    let b ← digitVal y2
    let c ← digitVal y3
    let d ← digitVal y4
    let year := 1000 * a + 100 * b + 10 * c + d
    let month ← twoDigits mo1 mo2
    let day ← twoDigits d1 d2
    let hour ← twoDigits h1 h2
    let minute ← twoDigits mi1 mi2
    let second ← twoDigits s1 s2
    if 1 ≤ month ∧ month ≤ 12 ∧ 1 ≤ day ∧ day ≤ daysInMonth year month ∧
        hour ≤ 23 ∧ minute ≤ 59 ∧ second ≤ 59 ∧ validFracThenZone rest = true
    then some (Int.ofNat year) else none
  | _ => none

/-- The `Media` record of `src/unnamed/part_001` (the typed track-metadata
model).  `Length` is a `time.Duration` (an `int64` count of nanoseconds) and
`Year` an `int8`, both modelled as `Int` with explicit wrapping where the
code converts. -/
structure Media where
  ID : String := ""
  Length : Int := 0
  ArtURL : String := ""
  Artist : String := ""
  Album : String := ""
  AlbumArtist : String := ""
  Title : String := ""
  Genre : String := ""
  Year : Int := 0
  URL : String := ""
deriving DecidableEq

/-- One iteration of the `for key, val := range metadataMap` loop of
`decodeMetadata`: dispatch on the key and overwrite the matching field of `m`
in place when the value has the expected dynamic type.  The
recognized-but-unused `xesam:` keys of the Go switch have empty case bodies
and are behaviourally identical to the final no-op default. -/
def decodeEntry (m : Media) (kv : String × DBusValue) : Media :=
  let key := kv.1
  let val := kv.2
  if key = "mpris:trackid" then
    match val with
    | .str v => { m with ID := v }
    | _ => m
  else if key = "mpris:length" then
    match val with
    | .int64 v => { m with Length := wrap64 (v * 1000) }
    | _ => m
  else if key = "mpris:artUrl" then
    match val with
    | .str v => { m with ArtURL := v }
    | _ => m
  else if key = "xesam:album" then
    match val with
    | .str v => { m with Album := v }
    | _ => m
  else if key = "xesam:albumArtist" then
    match val with
    | .str v => { m with AlbumArtist := v }
    | _ => m
  else if key = "xesam:artist" then
    match val with
    | .str v => { m with Artist := v }
    | .strList l => { m with Artist := String.intercalate ", " l }
    | _ => m
  else if key = "xesam:contentCreated" then
    match val with
    | .str v =>
      match parseRFC3339Year v with
      | some y => { m with Year := wrap8 y }
      | none => m
    | _ => m
  else if key = "xesam:genre" then
    match val with
    | .strList l => { m with Genre := String.intercalate ", " l }
    | _ => m
  else if key = "xesam:title" then
    match val with
    | .str v => { m with Title := v }
    | _ => m
  else if key = "xesam:url" then
    match val with
    | .str v => { m with URL := v }
    | _ => m
  else m

/-- `decodeMetadata` of `src/unnamed/part_001`: fails when the top-level
value is not a `map[string]dbus.Variant`, and otherwise mutates the supplied
`Media` record field by field over the entries of the map. -/
def decodeMetadata (metadata : DBusValue) (m : Media) : Except String Media :=
  match metadata with
  | .dict metadataMap => .ok (List.foldl decodeEntry m metadataMap)
  | _ => .error "mpris.decodeMetadata: metadata is not a valid structure"

/-- The string-backed `PlaybackStatus` enumeration of `src/mpris/enum.go`. -/
abbrev PlaybackStatus := String

/-- Constant `PlaybackStatusPaused`. -/
def PlaybackStatusPaused : PlaybackStatus := "Paused"

/-- Constant `PlaybackStatusPlaying`. -/
def PlaybackStatusPlaying : PlaybackStatus := "Playing"

/-- Constant `PlaybackStatusStopped`. -/
def PlaybackStatusStopped : PlaybackStatus := "Stopped"

/-- Membership test of `PlaybackStatus.IsValid`. -/
def PlaybackStatus.IsValid (e : PlaybackStatus) : Bool :=
  e == PlaybackStatusPaused || e == PlaybackStatusPlaying ||
    e == PlaybackStatusStopped

/-- The string-backed `LoopStatus` enumeration of `src/mpris/enum.go`. -/
abbrev LoopStatus := String

/-- Constant `LoopStatusNone`. -/
def LoopStatusNone : LoopStatus := "None"

/-- Constant `LoopStatusTrack`. -/
def LoopStatusTrack : LoopStatus := "Track"

/-- Constant `LoopStatusPlaylist`. -/
def LoopStatusPlaylist : LoopStatus := "Playlist"

/-- Membership test of `LoopStatus.IsValid`. -/
def LoopStatus.IsValid (e : LoopStatus) : Bool :=
  e == LoopStatusNone || e == LoopStatusTrack || e == LoopStatusPlaylist

/-- The coercion applied to an incoming `LoopStatus` string by
`UpdateProperties`: `s := LoopStatus(v); if !s.IsValid() { s = LoopStatusNone }`. -/
def loopCoerce (v : LoopStatus) : LoopStatus :=
  if LoopStatus.IsValid v then v else LoopStatusNone

/-- The lock-protected `properties` snapshot of `src/mpris/player.go`
(playback status, loop mode, shuffle flag, current track metadata).  The
mutex only serializes access and has no bearing on the values, so it is not
modelled. -/
structure Properties where
  PlaybackStatus : PlaybackStatus
  LoopStatus : LoopStatus
  Shuffle : Bool
  Media : Media
deriving DecidableEq

/-- One iteration of the `for key, val := range props` loop of
`UpdateProperties`: apply the entry to the snapshot and report the list of
change-set names it appends (either `[key]` or nothing). -/
def applyKey (p : Properties) (key : String) (val : DBusValue) :
    Properties × List String :=
  if key = "Shuffle" then
    match val with
    | .bool' v => if p.Shuffle != v then ({ p with Shuffle := v }, [key]) else (p, [])
    | _ => (p, [])
  else if key = "PlaybackStatus" then
    match val with
    | .str v =>
      if PlaybackStatus.IsValid v && p.PlaybackStatus != v then
        ({ p with PlaybackStatus := v }, [key])
      else (p, [])
    | _ => (p, [])
  else if key = "LoopStatus" then
    match val with
    | .str v =>
      if p.LoopStatus != loopCoerce v then ({ p with LoopStatus := loopCoerce v }, [key])
      else (p, [])
    | _ => (p, [])
  else if key = "Metadata" then
    match decodeMetadata val p.Media with
    | .ok m => ({ p with Media := m }, [key])
    | .error _ => (p, [])
  else (p, [])

/-- `UpdateProperties` of `src/mpris/player.go`: fold a change batch over the
snapshot, concatenating the change-set names appended by each entry.  A Go
map is embedded as an association list whose keys are pairwise distinct; the
loop body touches a disjoint part of the state per key, so list order stands
in for the map's unspecified iteration order. -/
def UpdateProperties (p : Properties) :
    List (String × DBusValue) → Properties × List String
  | [] => (p, [])
  | (key, val) :: rest =>
    let r := applyKey p key val
    let r2 := UpdateProperties r.1 rest
    (r2.1, r.2 ++ r2.2)

/-- A remote interaction performed by a control operation: a property `Get`
on the player interface or a method invocation. -/
inductive RemoteOp where
  | getProp (prop : String)
  | call (method : String)
deriving DecidableEq

/-- Environment standing for the remote endpoint behind the bus: the reply
to a player-interface property `Get` (`getPlayerProp`) and the error, if
any, returned by a method invocation (`callErr`). -/
structure RemoteEnv where
  getPlayerProp : String → Except String DBusValue
  callErr : String → Option String

/-- Errors surfaced by the control operations: the `ErrUnsupported`-wrapping
`fmt.Errorf` (tagged with the operation name), a transport error from the
remote call, and `ErrNotImplemented`. -/
inductive MprisError where
  | unsupported (op : String)
  | transport (op : String) (msg : String)
  | notImplemented
deriving DecidableEq

/-- Shared body of the `Can*` capability queries: a failed `Get`, a non-bool
reply, or a `false` reply all yield `false`.  The second component records
the remote interaction performed. -/
def canPlayerProp (env : RemoteEnv) (prop : String) : Bool × List RemoteOp :=
  (match env.getPlayerProp prop with
   | .error _ => false
   | .ok v =>
     match v with
     | .bool' b => b
     | _ => false,
   [RemoteOp.getProp prop])

/-- `CanPlay` of `src/mpris/player.go`. -/
def CanPlay (env : RemoteEnv) : Bool × List RemoteOp := canPlayerProp env "CanPlay"

/-- `CanPause` of `src/mpris/player.go`. -/
def CanPause (env : RemoteEnv) : Bool × List RemoteOp := canPlayerProp env "CanPause"

/-- `CanControl` of `src/mpris/player.go`. -/
def CanControl (env : RemoteEnv) : Bool × List RemoteOp := canPlayerProp env "CanControl"

/-- `Play` of `src/mpris/player.go`: no-op when the cached status is already
`Playing`; otherwise gated on `CanPlay`, then invoking the remote `Play`
method.  Returns the result together with the trace of remote interactions. -/
def Play (p : Properties) (env : RemoteEnv) :
    Except MprisError Unit × List RemoteOp :=
  if p.PlaybackStatus = PlaybackStatusPlaying then (.ok (), [])
  else
    let c := CanPlay env
    if c.1 = false then (.error (.unsupported "Play"), c.2)
    else
      match env.callErr "Play" with
      | some e => (.error (.transport "Play" e), c.2 ++ [RemoteOp.call "Play"])
      | none => (.ok (), c.2 ++ [RemoteOp.call "Play"])

/-- `Pause` of `src/mpris/player.go`: no-op when the cached status is already
`Paused`; otherwise gated on `CanPause`, then invoking the remote `Pause`
method. -/
def Pause (p : Properties) (env : RemoteEnv) :
    Except MprisError Unit × List RemoteOp :=
  if p.PlaybackStatus = PlaybackStatusPaused then (.ok (), [])
  else
    let c := CanPause env
    if c.1 = false then (.error (.unsupported "Pause"), c.2)
    else
      match env.callErr "Pause" with
      | some e => (.error (.transport "Pause" e), c.2 ++ [RemoteOp.call "Pause"])
      | none => (.ok (), c.2 ++ [RemoteOp.call "Pause"])

/-- `Stop` of `src/mpris/player.go`: no-op when the cached status is already
`Stopped`; otherwise gated on `CanControl`, then invoking the remote `Stop`
method. -/
def Stop (p : Properties) (env : RemoteEnv) :
    Except MprisError Unit × List RemoteOp :=
  if p.PlaybackStatus = PlaybackStatusStopped then (.ok (), [])
  else
    let c := CanControl env
    if c.1 = false then (.error (.unsupported "Stop"), c.2)
    else
      match env.callErr "Stop" with
      | some e => (.error (.transport "Stop" e), c.2 ++ [RemoteOp.call "Stop"])
      | none => (.ok (), c.2 ++ [RemoteOp.call "Stop"])

/-- Character class `[a-zA-Z-_]` of the destination regular expression. -/
def isClass1Char (c : Char) : Bool :=
  (decide ('a' ≤ c) && decide (c ≤ 'z')) || (decide ('A' ≤ c) && decide (c ≤ 'Z')) ||
    c == '-' || c == '_'

/-- Character class `[a-zA-Z-_0-9.]` of the destination regular expression. -/
def isClass2Char (c : Char) : Bool :=
  isClass1Char c || (decide ('0' ≤ c) && decide (c ≤ '9')) || c == '.'

/-- Match of one literal character of the pattern
`org.mpris.MediaPlayer2.`: the unescaped `.` matches any character except a
newline (RE2 default), every other character matches itself. -/
def litMatch (pc c : Char) : Bool := if pc == '.' then c != '\n' else pc == c

/-- Anchored match of `^org.mpris.MediaPlayer2.([a-zA-Z-_]{1}[a-zA-Z-_0-9.]*)$`
against a character list: consume the 23 pattern characters, then require one
class-1 character followed by class-2 characters up to the end. -/
def matchDest : List Char → List Char → Bool
  | [], c :: rest => isClass1Char c && rest.all isClass2Char
  | [], [] => false
  | pc :: ps, c :: rest => litMatch pc c && matchDest ps rest
  | _ :: _, [] => false

/-- `HasValidDestinationName` of `src/mpris/player.go`:
`destinationRegexp.MatchString(destination)` for the regular expression
compiled in `init`. -/
def HasValidDestinationName (destination : String) : Bool :=
  matchDest "org.mpris.MediaPlayer2.".toList destination.toList

/-- The `signalNameOwnerChanged` branch of the listener loop in `Register`
(`src/mpris/player.go` lines 139-145): given the endpoint's bus name `pName`
and the signal body, decide whether the loop breaks (which runs the deferred
teardown: removing the signal channel, invoking the disconnect callback and
unsubscribing both streams).  `none` models the Go panic from indexing a
body that is too short; `some b` reports whether `break Loop` runs. -/
def ownerChangedBreaks (pName : String) (body : List DBusValue) : Option Bool :=
  match body with
  | [] => none
  | b0 :: rest =>
    match b0.asStr with
    | some name =>
      if name = pName then
        match rest with
        | [] => none
        | b1 :: _ =>
          match b1.asStr with
          | some ownerID => some (ownerID != "")
          | none => some false
      else some false
    | none => some false

/-- Field update attempt keyed to a single map key: yields the new field
value when the key matches and the dynamic type fits, `none` otherwise. -/
def keyedUpd {α : Type} (K : String) (val : DBusValue → Option α) (k : String)
    (v : DBusValue) : Option α :=
  if k = K then val v else none

/-- Apply an optional field update to the current field value. -/
def optUpd {α : Type} (upd : String → DBusValue → Option α) (a : α)
    (kv : String × DBusValue) : α :=
  (upd kv.1 kv.2).getD a

/-- Candidate `Length` value of a metadata entry. -/
def lenVal : DBusValue → Option Int
  | .int64 n => some (wrap64 (n * 1000))
  | _ => none

/-- Candidate `Artist` value of a metadata entry (string, or list joined
with a comma and a space). -/
def artistVal : DBusValue → Option String
  | .str s => some s
  | .strList l => some (String.intercalate ", " l)
  | _ => none

/-- Candidate `Genre` value of a metadata entry. -/
def genreVal : DBusValue → Option String
  | .strList l => some (String.intercalate ", " l)
  | _ => none

/-- Candidate `Year` value of a metadata entry: a string that parses as an
RFC-3339 timestamp, narrowed to the signed 8-bit range. -/
def yearVal : DBusValue → Option Int
  | .str s => (parseRFC3339Year s).map wrap8
  | _ => none

/-- Bool-valued update candidate for the `Shuffle` key. -/
def shVal : DBusValue → Option Bool
  | .bool' b => some b
  | _ => none

/-- Update candidate for the `PlaybackStatus` key: a string value that is a
valid enum member; invalid values are dropped. -/
def pbVal : DBusValue → Option String
  | .str s => if PlaybackStatus.IsValid s then some s else none
  | _ => none

/-- Update candidate for the `LoopStatus` key: a string value coerced into
the enum, falling back to `None`. -/
def lsVal : DBusValue → Option String
  | .str s => some (loopCoerce s)
  | _ => none

/-- Effect of one batch entry on the cached `Media` record: only the
`Metadata` key touches it, decoding a well-shaped dictionary in place and
ignoring everything else. -/
def mediaApply (m : Media) (k : String) (v : DBusValue) : Media :=
  if k = "Metadata" then
    match v with
    | .dict entries => List.foldl decodeEntry m entries
    | _ => m
  else m

/-- Whether `UpdateProperties` appends key `k` with value `v` to the
change-set, as a function of the current snapshot. -/
def keyAccepted (p : Properties) (k : String) (v : DBusValue) : Bool :=
  if k = "Shuffle" then
    match v with
    | .bool' b => p.Shuffle != b
    | _ => false
  else if k = "PlaybackStatus" then
    match v with
    | .str s => PlaybackStatus.IsValid s && p.PlaybackStatus != s
    | _ => false
  else if k = "LoopStatus" then
    match v with
    | .str s => p.LoopStatus != loopCoerce s
    | _ => false
  else if k = "Metadata" then DBusValue.isDict v
  else false

/-- Environment whose every property query fails with a transport error and
whose method calls never fail. -/
def envAllFail : RemoteEnv :=
  { getPlayerProp := fun _ => .error "transport failure",
    callErr := fun _ => none }

/-- Snapshot whose cached playback status is `Playing`. -/
def playingProps : Properties :=
  { PlaybackStatus := PlaybackStatusPlaying, LoopStatus := LoopStatusNone,
    Shuffle := false, Media := {} }

/-- Snapshot whose cached playback status is `Paused`. -/
def pausedProps : Properties :=
  { PlaybackStatus := PlaybackStatusPaused, LoopStatus := LoopStatusNone,
    Shuffle := false, Media := {} }

/-- Snapshot whose cached playback status is `Stopped`. -/
def stoppedProps : Properties :=
  { PlaybackStatus := PlaybackStatusStopped, LoopStatus := LoopStatusNone,
    Shuffle := false, Media := {} }

/-- Snapshot with `Paused` playback status and `Track` loop mode. -/
def trackLoopProps : Properties :=
  { PlaybackStatus := PlaybackStatusPaused, LoopStatus := LoopStatusTrack,
    Shuffle := false, Media := {} }

/-- A change batch carrying an invalid playback status and an invalid loop
status. -/
def batchInvalid : List (String × DBusValue) :=
  [("PlaybackStatus", DBusValue.str "Bogus"), ("LoopStatus", DBusValue.str "Weird")]

/-- A full valid change batch touching all four recognized keys. -/
def batchFull : List (String × DBusValue) :=
  [("Shuffle", DBusValue.bool' true), ("PlaybackStatus", DBusValue.str "Playing"),
    ("LoopStatus", DBusValue.str "Track"), ("Metadata", DBusValue.dict [])]

/-- Snapshot whose cached track still carries a title from a previous
metadata update. -/
def stalePlayer : Properties :=
  { PlaybackStatus := PlaybackStatusStopped, LoopStatus := LoopStatusNone,
    Shuffle := false, Media := { Title := "Old Song" } }

/-- A metadata bag whose creation timestamp is the RFC-3339 string
`2024-06-01T12:00:00Z`. -/
def sampleMeta : List (String × DBusValue) :=
  [("xesam:contentCreated", DBusValue.str "2024-06-01T12:00:00Z")]

theorem foldl_id_of_forall {β : Type} (step : β → (String × DBusValue) → β)
    (l : List (String × DBusValue)) (b0 : β)
    (h : ∀ b kv, kv ∈ l → step b kv = b) :
    List.foldl step b0 l = b0 := by
  induction l generalizing b0 with
  | nil => rfl
  | cons kv rest ih =>
    rw [List.foldl_cons, h b0 kv (List.mem_cons_self _ _)]
    exact ih b0 fun b kv' h' => h b kv' (List.mem_cons_of_mem _ h')

theorem foldl_eq_step_of_mem {β : Type} (step : β → (String × DBusValue) → β)
    (K : String) (hid : ∀ b k v, k ≠ K → step b (k, v) = b)
    (l : List (String × DBusValue)) (b0 : β) (v : DBusValue)
    (hnd : (l.map Prod.fst).Nodup) (hmem : (K, v) ∈ l) :
    List.foldl step b0 l = step b0 (K, v) := by
  induction l generalizing b0 with
  | nil => exact absurd hmem (List.not_mem_nil _)
  | cons kv rest ih =>
    rw [List.foldl_cons]
    rw [List.map_cons, List.nodup_cons] at hnd
    rcases List.mem_cons.mp hmem with h | h
    · subst h
      exact foldl_id_of_forall step rest _ fun b kv' h' => by
        rcases kv' with ⟨k', v'⟩
        refine hid b k' v' fun he => hnd.1 ?_
        have hm : k' ∈ rest.map Prod.fst := List.mem_map_of_mem Prod.fst h'
        rwa [he] at hm
    · rcases kv with ⟨k0, v0⟩
      have hk0 : k0 ≠ K := by
        intro he
        have hm : K ∈ rest.map Prod.fst := List.mem_map_of_mem Prod.fst h
        exact hnd.1 (he ▸ hm)
      rw [hid b0 k0 v0 hk0]
      exact ih _ hnd.2 h

theorem foldl_proj {β α : Type} (step : β → (String × DBusValue) → β)
    (proj : β → α) (pstep : α → (String × DBusValue) → α)
    (hstep : ∀ b kv, proj (step b kv) = pstep (proj b) kv)
    (l : List (String × DBusValue)) (b0 : β) :
    proj (List.foldl step b0 l) = List.foldl pstep (proj b0) l := by
  induction l generalizing b0 with
  | nil => rfl
  | cons kv rest ih => rw [List.foldl_cons, List.foldl_cons, ih, hstep]

theorem optUpd_keyed_ne {α : Type} (K : String) (val : DBusValue → Option α) {k : String}
    (v : DBusValue) (a : α) (h : k ≠ K) :
    optUpd (keyedUpd K val) a (k, v) = a := by
  simp [optUpd, keyedUpd, h]

theorem optUpd_keyed_eq {α : Type} (K : String) (val : DBusValue → Option α)
    (v : DBusValue) (a : α) :
    optUpd (keyedUpd K val) a (K, v) = (val v).getD a := by
  simp [optUpd, keyedUpd]

theorem foldUpd_mem {α : Type} (K : String) (val : DBusValue → Option α)
    (l : List (String × DBusValue)) (a0 : α) (v : DBusValue)
    (hnd : (l.map Prod.fst).Nodup) (hmem : (K, v) ∈ l) :
    List.foldl (optUpd (keyedUpd K val)) a0 l = (val v).getD a0 :=
  (foldl_eq_step_of_mem (optUpd (keyedUpd K val)) K
    (fun a k v' hk => optUpd_keyed_ne K val v' a hk) l a0 v hnd hmem).trans
    (optUpd_keyed_eq K val v a0)

theorem foldUpd_absent {α : Type} (K : String) (val : DBusValue → Option α)
    (l : List (String × DBusValue)) (a0 : α) (h : K ∉ l.map Prod.fst) :
    List.foldl (optUpd (keyedUpd K val)) a0 l = a0 := by
  refine foldl_id_of_forall _ l a0 fun a kv h' => ?_
  rcases kv with ⟨k, v⟩
  refine optUpd_keyed_ne K val v a fun he => h ?_
  exact he ▸ List.mem_map_of_mem Prod.fst h'

theorem foldUpd_none {α : Type} (K : String) (val : DBusValue → Option α)
    (l : List (String × DBusValue)) (a0 : α)
    (h : ∀ v, (K, v) ∈ l → val v = none) :
    List.foldl (optUpd (keyedUpd K val)) a0 l = a0 := by
  refine foldl_id_of_forall _ l a0 fun a kv h' => ?_
  rcases kv with ⟨k, v⟩
  by_cases hk : k = K
  · subst hk
    simp [optUpd, keyedUpd, h v h']
  · exact optUpd_keyed_ne K val v a hk

theorem decodeEntry_ID_ne (m : Media) (k : String) (v : DBusValue)
    (hk : k ≠ "mpris:trackid") : (decodeEntry m (k, v)).ID = m.ID := by
  simp only [decodeEntry]
  rw [if_neg hk]
  rcases eq_or_ne k "mpris:length" with h1 | h1
  · rw [if_pos h1]
    cases v <;> first
      | rfl
      | (rename_i s; rcases hp : parseRFC3339Year s with _ | y <;> simp [hp])
  rw [if_neg h1]
  rcases eq_or_ne k "mpris:artUrl" with h2 | h2
  · rw [if_pos h2]
    cases v <;> first
      | rfl
      | (rename_i s; rcases hp : parseRFC3339Year s with _ | y <;> simp [hp])
  rw [if_neg h2]
  rcases eq_or_ne k "xesam:album" with h3 | h3
  · rw [if_pos h3]
    cases v <;> first
      | rfl
      | (rename_i s; rcases hp : parseRFC3339Year s with _ | y <;> simp [hp])
  rw [if_neg h3]
  rcases eq_or_ne k "xesam:albumArtist" with h4 | h4
  · rw [if_pos h4]
    cases v <;> first
      | rfl
      | (rename_i s; rcases hp : parseRFC3339Year s with _ | y <;> simp [hp])
  rw [if_neg h4]
  rcases eq_or_ne k "xesam:artist" with h5 | h5
  · rw [if_pos h5]
    cases v <;> first
      | rfl
      | (rename_i s; rcases hp : parseRFC3339Year s with _ | y <;> simp [hp])
  rw [if_neg h5]
  rcases eq_or_ne k "xesam:contentCreated" with h6 | h6
  · rw [if_pos h6]
    cases v <;> first
      | rfl
      | (rename_i s; rcases hp : parseRFC3339Year s with _ | y <;> simp [hp])
  rw [if_neg h6]
  rcases eq_or_ne k "xesam:genre" with h7 | h7
  · rw [if_pos h7]
    cases v <;> first
      | rfl
      | (rename_i s; rcases hp : parseRFC3339Year s with _ | y <;> simp [hp])
  rw [if_neg h7]
  rcases eq_or_ne k "xesam:title" with h8 | h8
  · rw [if_pos h8]
    cases v <;> first
      | rfl
      | (rename_i s; rcases hp : parseRFC3339Year s with _ | y <;> simp [hp])
  rw [if_neg h8]
  rcases eq_or_ne k "xesam:url" with h9 | h9
  · rw [if_pos h9]
    cases v <;> first
      | rfl
      | (rename_i s; rcases hp : parseRFC3339Year s with _ | y <;> simp [hp])
  rw [if_neg h9]

theorem decodeEntry_Length_ne (m : Media) (k : String) (v : DBusValue)
    (hk : k ≠ "mpris:length") : (decodeEntry m (k, v)).Length = m.Length := by
  simp only [decodeEntry]
  rcases eq_or_ne k "mpris:trackid" with h0 | h0
  · rw [if_pos h0]
    cases v <;> first
      | rfl
      | (rename_i s; rcases hp : parseRFC3339Year s with _ | y <;> simp [hp])
  rw [if_neg h0]
  rw [if_neg hk]
  rcases eq_or_ne k "mpris:artUrl" with h2 | h2
  · rw [if_pos h2]
    cases v <;> first
      | rfl
      | (rename_i s; rcases hp : parseRFC3339Year s with _ | y <;> simp [hp])
  rw [if_neg h2]
  rcases eq_or_ne k "xesam:album" with h3 | h3
  · rw [if_pos h3]
    cases v <;> first
      | rfl
      | (rename_i s; rcases hp : parseRFC3339Year s with _ | y <;> simp [hp])
  rw [if_neg h3]
  rcases eq_or_ne k "xesam:albumArtist" with h4 | h4
  · rw [if_pos h4]
    cases v <;> first
      | rfl
      | (rename_i s; rcases hp : parseRFC3339Year s with _ | y <;> simp [hp])
  rw [if_neg h4]
  rcases eq_or_ne k "xesam:artist" with h5 | h5
  · rw [if_pos h5]
    cases v <;> first
      | rfl
      | (rename_i s; rcases hp : parseRFC3339Year s with _ | y <;> simp [hp])
  rw [if_neg h5]
  rcases eq_or_ne k "xesam:contentCreated" with h6 | h6
  · rw [if_pos h6]
    cases v <;> first
      | rfl
      | (rename_i s; rcases hp : parseRFC3339Year s with _ | y <;> simp [hp])
  rw [if_neg h6]
  rcases eq_or_ne k "xesam:genre" with h7 | h7
  · rw [if_pos h7]
    cases v <;> first
      | rfl
      | (rename_i s; rcases hp : parseRFC3339Year s with _ | y <;> simp [hp])
  rw [if_neg h7]
  rcases eq_or_ne k "xesam:title" with h8 | h8
  · rw [if_pos h8]
    cases v <;> first
      | rfl
      | (rename_i s; rcases hp : parseRFC3339Year s with _ | y <;> simp [hp])
  rw [if_neg h8]
  rcases eq_or_ne k "xesam:url" with h9 | h9
  · rw [if_pos h9]
    cases v <;> first
      | rfl
      | (rename_i s; rcases hp : parseRFC3339Year s with _ | y <;> simp [hp])
  rw [if_neg h9]

theorem decodeEntry_ArtURL_ne (m : Media) (k : String) (v : DBusValue)
    (hk : k ≠ "mpris:artUrl") : (decodeEntry m (k, v)).ArtURL = m.ArtURL := by
  simp only [decodeEntry]
  rcases eq_or_ne k "mpris:trackid" with h0 | h0
  · rw [if_pos h0]
    cases v <;> first
      | rfl
      | (rename_i s; rcases hp : parseRFC3339Year s with _ | y <;> simp [hp])
  rw [if_neg h0]
  rcases eq_or_ne k "mpris:length" with h1 | h1
  · rw [if_pos h1]
    cases v <;> first
      | rfl
      | (rename_i s; rcases hp : parseRFC3339Year s with _ | y <;> simp [hp])
  rw [if_neg h1]
  rw [if_neg hk]
  rcases eq_or_ne k "xesam:album" with h3 | h3
  · rw [if_pos h3]
    cases v <;> first
      | rfl
      | (rename_i s; rcases hp : parseRFC3339Year s with _ | y <;> simp [hp])
  rw [if_neg h3]
  rcases eq_or_ne k "xesam:albumArtist" with h4 | h4
  · rw [if_pos h4]
    cases v <;> first
      | rfl
      | (rename_i s; rcases hp : parseRFC3339Year s with _ | y <;> simp [hp])
  rw [if_neg h4]
  rcases eq_or_ne k "xesam:artist" with h5 | h5
  · rw [if_pos h5]
    cases v <;> first
      | rfl
      | (rename_i s; rcases hp : parseRFC3339Year s with _ | y <;> simp [hp])
  rw [if_neg h5]
  rcases eq_or_ne k "xesam:contentCreated" with h6 | h6
  · rw [if_pos h6]
    cases v <;> first
      | rfl
      | (rename_i s; rcases hp : parseRFC3339Year s with _ | y <;> simp [hp])
  rw [if_neg h6]
  rcases eq_or_ne k "xesam:genre" with h7 | h7
  · rw [if_pos h7]
    cases v <;> first
      | rfl
      | (rename_i s; rcases hp : parseRFC3339Year s with _ | y <;> simp [hp])
  rw [if_neg h7]
  rcases eq_or_ne k "xesam:title" with h8 | h8
  · rw [if_pos h8]
    cases v <;> first
      | rfl
      | (rename_i s; rcases hp : parseRFC3339Year s with _ | y <;> simp [hp])
  rw [if_neg h8]
  rcases eq_or_ne k "xesam:url" with h9 | h9
  · rw [if_pos h9]
    cases v <;> first
      | rfl
      | (rename_i s; rcases hp : parseRFC3339Year s with _ | y <;> simp [hp])
  rw [if_neg h9]

theorem decodeEntry_Album_ne (m : Media) (k : String) (v : DBusValue)
    (hk : k ≠ "xesam:album") : (decodeEntry m (k, v)).Album = m.Album := by
  simp only [decodeEntry]
  rcases eq_or_ne k "mpris:trackid" with h0 | h0
  · rw [if_pos h0]
    cases v <;> first
      | rfl
      | (rename_i s; rcases hp : parseRFC3339Year s with _ | y <;> simp [hp])
  rw [if_neg h0]
  rcases eq_or_ne k "mpris:length" with h1 | h1
  · rw [if_pos h1]
    cases v <;> first
      | rfl
      | (rename_i s; rcases hp : parseRFC3339Year s with _ | y <;> simp [hp])
  rw [if_neg h1]
  rcases eq_or_ne k "mpris:artUrl" with h2 | h2
  · rw [if_pos h2]
    cases v <;> first
      | rfl
      | (rename_i s; rcases hp : parseRFC3339Year s with _ | y <;> simp [hp])
  rw [if_neg h2]
  rw [if_neg hk]
  rcases eq_or_ne k "xesam:albumArtist" with h4 | h4
  · rw [if_pos h4]
    cases v <;> first
      | rfl
      | (rename_i s; rcases hp : parseRFC3339Year s with _ | y <;> simp [hp])
  rw [if_neg h4]
  rcases eq_or_ne k "xesam:artist" with h5 | h5
  · rw [if_pos h5]
    cases v <;> first
      | rfl
      | (rename_i s; rcases hp : parseRFC3339Year s with _ | y <;> simp [hp])
  rw [if_neg h5]
  rcases eq_or_ne k "xesam:contentCreated" with h6 | h6
  · rw [if_pos h6]
    cases v <;> first
      | rfl
      | (rename_i s; rcases hp : parseRFC3339Year s with _ | y <;> simp [hp])
  rw [if_neg h6]
  rcases eq_or_ne k "xesam:genre" with h7 | h7
  · rw [if_pos h7]
    cases v <;> first
      | rfl
      | (rename_i s; rcases hp : parseRFC3339Year s with _ | y <;> simp [hp])
  rw [if_neg h7]
  rcases eq_or_ne k "xesam:title" with h8 | h8
  · rw [if_pos h8]
    cases v <;> first
      | rfl
      | (rename_i s; rcases hp : parseRFC3339Year s with _ | y <;> simp [hp])
  rw [if_neg h8]
  rcases eq_or_ne k "xesam:url" with h9 | h9
  · rw [if_pos h9]
    cases v <;> first
      | rfl
      | (rename_i s; rcases hp : parseRFC3339Year s with _ | y <;> simp [hp])
  rw [if_neg h9]

theorem decodeEntry_AlbumArtist_ne (m : Media) (k : String) (v : DBusValue)
    (hk : k ≠ "xesam:albumArtist") : (decodeEntry m (k, v)).AlbumArtist = m.AlbumArtist := by
  simp only [decodeEntry]
  rcases eq_or_ne k "mpris:trackid" with h0 | h0
  · rw [if_pos h0]
    cases v <;> first
      | rfl
      | (rename_i s; rcases hp : parseRFC3339Year s with _ | y <;> simp [hp])
  rw [if_neg h0]
  rcases eq_or_ne k "mpris:length" with h1 | h1
  · rw [if_pos h1]
    cases v <;> first
      | rfl
      | (rename_i s; rcases hp : parseRFC3339Year s with _ | y <;> simp [hp])
  rw [if_neg h1]
  rcases eq_or_ne k "mpris:artUrl" with h2 | h2
  · rw [if_pos h2]
    cases v <;> first
      | rfl
      | (rename_i s; rcases hp : parseRFC3339Year s with _ | y <;> simp [hp])
  rw [if_neg h2]
  rcases eq_or_ne k "xesam:album" with h3 | h3
  · rw [if_pos h3]
    cases v <;> first
      | rfl
      | (rename_i s; rcases hp : parseRFC3339Year s with _ | y <;> simp [hp])
  rw [if_neg h3]
  rw [if_neg hk]
  rcases eq_or_ne k "xesam:artist" with h5 | h5
  · rw [if_pos h5]
    cases v <;> first
      | rfl
      | (rename_i s; rcases hp : parseRFC3339Year s with _ | y <;> simp [hp])
  rw [if_neg h5]
  rcases eq_or_ne k "xesam:contentCreated" with h6 | h6
  · rw [if_pos h6]
    cases v <;> first
      | rfl
      | (rename_i s; rcases hp : parseRFC3339Year s with _ | y <;> simp [hp])
  rw [if_neg h6]
  rcases eq_or_ne k "xesam:genre" with h7 | h7
  · rw [if_pos h7]
    cases v <;> first
      | rfl
      | (rename_i s; rcases hp : parseRFC3339Year s with _ | y <;> simp [hp])
  rw [if_neg h7]
  rcases eq_or_ne k "xesam:title" with h8 | h8
  · rw [if_pos h8]
    cases v <;> first
      | rfl
      | (rename_i s; rcases hp : parseRFC3339Year s with _ | y <;> simp [hp])
  rw [if_neg h8]
  rcases eq_or_ne k "xesam:url" with h9 | h9
  · rw [if_pos h9]
    cases v <;> first
      | rfl
      | (rename_i s; rcases hp : parseRFC3339Year s with _ | y <;> simp [hp])
  rw [if_neg h9]

theorem decodeEntry_Artist_ne (m : Media) (k : String) (v : DBusValue)
    (hk : k ≠ "xesam:artist") : (decodeEntry m (k, v)).Artist = m.Artist := by
  simp only [decodeEntry]
  rcases eq_or_ne k "mpris:trackid" with h0 | h0
  · rw [if_pos h0]
    cases v <;> first
      | rfl
      | (rename_i s; rcases hp : parseRFC3339Year s with _ | y <;> simp [hp])
  rw [if_neg h0]
  rcases eq_or_ne k "mpris:length" with h1 | h1
  · rw [if_pos h1]
    cases v <;> first
      | rfl
      | (rename_i s; rcases hp : parseRFC3339Year s with _ | y <;> simp [hp])
  rw [if_neg h1]
  rcases eq_or_ne k "mpris:artUrl" with h2 | h2
  · rw [if_pos h2]
    cases v <;> first
      | rfl
      | (rename_i s; rcases hp : parseRFC3339Year s with _ | y <;> simp [hp])
  rw [if_neg h2]
  rcases eq_or_ne k "xesam:album" with h3 | h3
  · rw [if_pos h3]
    cases v <;> first
      | rfl
      | (rename_i s; rcases hp : parseRFC3339Year s with _ | y <;> simp [hp])
  rw [if_neg h3]
  rcases eq_or_ne k "xesam:albumArtist" with h4 | h4
  · rw [if_pos h4]
    cases v <;> first
      | rfl
      | (rename_i s; rcases hp : parseRFC3339Year s with _ | y <;> simp [hp])
  rw [if_neg h4]
  rw [if_neg hk]
  rcases eq_or_ne k "xesam:contentCreated" with h6 | h6
  · rw [if_pos h6]
    cases v <;> first
      | rfl
      | (rename_i s; rcases hp : parseRFC3339Year s with _ | y <;> simp [hp])
  rw [if_neg h6]
  rcases eq_or_ne k "xesam:genre" with h7 | h7
  · rw [if_pos h7]
    cases v <;> first
      | rfl
      | (rename_i s; rcases hp : parseRFC3339Year s with _ | y <;> simp [hp])
  rw [if_neg h7]
  rcases eq_or_ne k "xesam:title" with h8 | h8
  · rw [if_pos h8]
    cases v <;> first
      | rfl
      | (rename_i s; rcases hp : parseRFC3339Year s with _ | y <;> simp [hp])
  rw [if_neg h8]
  rcases eq_or_ne k "xesam:url" with h9 | h9
  · rw [if_pos h9]
    cases v <;> first
      | rfl
      | (rename_i s; rcases hp : parseRFC3339Year s with _ | y <;> simp [hp])
  rw [if_neg h9]

theorem decodeEntry_Year_ne (m : Media) (k : String) (v : DBusValue)
    (hk : k ≠ "xesam:contentCreated") : (decodeEntry m (k, v)).Year = m.Year := by
  simp only [decodeEntry]
  rcases eq_or_ne k "mpris:trackid" with h0 | h0
  · rw [if_pos h0]
    cases v <;> first
      | rfl
      | (rename_i s; rcases hp : parseRFC3339Year s with _ | y <;> simp [hp])
  rw [if_neg h0]
  rcases eq_or_ne k "mpris:length" with h1 | h1
  · rw [if_pos h1]
    cases v <;> first
      | rfl
      | (rename_i s; rcases hp : parseRFC3339Year s with _ | y <;> simp [hp])
  rw [if_neg h1]
  rcases eq_or_ne k "mpris:artUrl" with h2 | h2
  · rw [if_pos h2]
    cases v <;> first
      | rfl
      | (rename_i s; rcases hp : parseRFC3339Year s with _ | y <;> simp [hp])
  rw [if_neg h2]
  rcases eq_or_ne k "xesam:album" with h3 | h3
  · rw [if_pos h3]
    cases v <;> first
      | rfl
      | (rename_i s; rcases hp : parseRFC3339Year s with _ | y <;> simp [hp])
  rw [if_neg h3]
  rcases eq_or_ne k "xesam:albumArtist" with h4 | h4
  · rw [if_pos h4]
    cases v <;> first
      | rfl
      | (rename_i s; rcases hp : parseRFC3339Year s with _ | y <;> simp [hp])
  rw [if_neg h4]
  rcases eq_or_ne k "xesam:artist" with h5 | h5
  · rw [if_pos h5]
    cases v <;> first
      | rfl
      | (rename_i s; rcases hp : parseRFC3339Year s with _ | y <;> simp [hp])
  rw [if_neg h5]
  rw [if_neg hk]
  rcases eq_or_ne k "xesam:genre" with h7 | h7
  · rw [if_pos h7]
    cases v <;> first
      | rfl
      | (rename_i s; rcases hp : parseRFC3339Year s with _ | y <;> simp [hp])
  rw [if_neg h7]
  rcases eq_or_ne k "xesam:title" with h8 | h8
  · rw [if_pos h8]
    cases v <;> first
      | rfl
      | (rename_i s; rcases hp : parseRFC3339Year s with _ | y <;> simp [hp])
  rw [if_neg h8]
  rcases eq_or_ne k "xesam:url" with h9 | h9
  · rw [if_pos h9]
    cases v <;> first
      | rfl
      | (rename_i s; rcases hp : parseRFC3339Year s with _ | y <;> simp [hp])
  rw [if_neg h9]

theorem decodeEntry_Genre_ne (m : Media) (k : String) (v : DBusValue)
    (hk : k ≠ "xesam:genre") : (decodeEntry m (k, v)).Genre = m.Genre := by
  simp only [decodeEntry]
  rcases eq_or_ne k "mpris:trackid" with h0 | h0
  · rw [if_pos h0]
    cases v <;> first
      | rfl
      | (rename_i s; rcases hp : parseRFC3339Year s with _ | y <;> simp [hp])
  rw [if_neg h0]
  rcases eq_or_ne k "mpris:length" with h1 | h1
  · rw [if_pos h1]
    cases v <;> first
      | rfl
      | (rename_i s; rcases hp : parseRFC3339Year s with _ | y <;> simp [hp])
  rw [if_neg h1]
  rcases eq_or_ne k "mpris:artUrl" with h2 | h2
  · rw [if_pos h2]
    cases v <;> first
      | rfl
      | (rename_i s; rcases hp : parseRFC3339Year s with _ | y <;> simp [hp])
  rw [if_neg h2]
  rcases eq_or_ne k "xesam:album" with h3 | h3
  · rw [if_pos h3]
    cases v <;> first
      | rfl
      | (rename_i s; rcases hp : parseRFC3339Year s with _ | y <;> simp [hp])
  rw [if_neg h3]
  rcases eq_or_ne k "xesam:albumArtist" with h4 | h4
  · rw [if_pos h4]
    cases v <;> first
      | rfl
      | (rename_i s; rcases hp : parseRFC3339Year s with _ | y <;> simp [hp])
  rw [if_neg h4]
  rcases eq_or_ne k "xesam:artist" with h5 | h5
  · rw [if_pos h5]
    cases v <;> first
      | rfl
      | (rename_i s; rcases hp : parseRFC3339Year s with _ | y <;> simp [hp])
  rw [if_neg h5]
  rcases eq_or_ne k "xesam:contentCreated" with h6 | h6
  · rw [if_pos h6]
    cases v <;> first
      | rfl
      | (rename_i s; rcases hp : parseRFC3339Year s with _ | y <;> simp [hp])
  rw [if_neg h6]
  rw [if_neg hk]
  rcases eq_or_ne k "xesam:title" with h8 | h8
  · rw [if_pos h8]
    cases v <;> first
      | rfl
      | (rename_i s; rcases hp : parseRFC3339Year s with _ | y <;> simp [hp])
  rw [if_neg h8]
  rcases eq_or_ne k "xesam:url" with h9 | h9
  · rw [if_pos h9]
    cases v <;> first
      | rfl
      | (rename_i s; rcases hp : parseRFC3339Year s with _ | y <;> simp [hp])
  rw [if_neg h9]

theorem decodeEntry_Title_ne (m : Media) (k : String) (v : DBusValue)
    (hk : k ≠ "xesam:title") : (decodeEntry m (k, v)).Title = m.Title := by
  simp only [decodeEntry]
  rcases eq_or_ne k "mpris:trackid" with h0 | h0
  · rw [if_pos h0]
    cases v <;> first
      | rfl
      | (rename_i s; rcases hp : parseRFC3339Year s with _ | y <;> simp [hp])
  rw [if_neg h0]
  rcases eq_or_ne k "mpris:length" with h1 | h1
  · rw [if_pos h1]
    cases v <;> first
      | rfl
      | (rename_i s; rcases hp : parseRFC3339Year s with _ | y <;> simp [hp])
  rw [if_neg h1]
  rcases eq_or_ne k "mpris:artUrl" with h2 | h2
  · rw [if_pos h2]
    cases v <;> first
      | rfl
      | (rename_i s; rcases hp : parseRFC3339Year s with _ | y <;> simp [hp])
  rw [if_neg h2]
  rcases eq_or_ne k "xesam:album" with h3 | h3
  · rw [if_pos h3]
    cases v <;> first
      | rfl
      | (rename_i s; rcases hp : parseRFC3339Year s with _ | y <;> simp [hp])
  rw [if_neg h3]
  rcases eq_or_ne k "xesam:albumArtist" with h4 | h4
  · rw [if_pos h4]
    cases v <;> first
      | rfl
      | (rename_i s; rcases hp : parseRFC3339Year s with _ | y <;> simp [hp])
  rw [if_neg h4]
  rcases eq_or_ne k "xesam:artist" with h5 | h5
  · rw [if_pos h5]
    cases v <;> first
      | rfl
      | (rename_i s; rcases hp : parseRFC3339Year s with _ | y <;> simp [hp])
  rw [if_neg h5]
  rcases eq_or_ne k "xesam:contentCreated" with h6 | h6
  · rw [if_pos h6]
    cases v <;> first
      | rfl
      | (rename_i s; rcases hp : parseRFC3339Year s with _ | y <;> simp [hp])
  rw [if_neg h6]
  rcases eq_or_ne k "xesam:genre" with h7 | h7
  · rw [if_pos h7]
    cases v <;> first
      | rfl
      | (rename_i s; rcases hp : parseRFC3339Year s with _ | y <;> simp [hp])
  rw [if_neg h7]
  rw [if_neg hk]
  rcases eq_or_ne k "xesam:url" with h9 | h9
  · rw [if_pos h9]
    cases v <;> first
      | rfl
      | (rename_i s; rcases hp : parseRFC3339Year s with _ | y <;> simp [hp])
  rw [if_neg h9]

theorem decodeEntry_URL_ne (m : Media) (k : String) (v : DBusValue)
    (hk : k ≠ "xesam:url") : (decodeEntry m (k, v)).URL = m.URL := by
  simp only [decodeEntry]
  rcases eq_or_ne k "mpris:trackid" with h0 | h0
  · rw [if_pos h0]
    cases v <;> first
      | rfl
      | (rename_i s; rcases hp : parseRFC3339Year s with _ | y <;> simp [hp])
  rw [if_neg h0]
  rcases eq_or_ne k "mpris:length" with h1 | h1
  · rw [if_pos h1]
    cases v <;> first
      | rfl
      | (rename_i s; rcases hp : parseRFC3339Year s with _ | y <;> simp [hp])
  rw [if_neg h1]
  rcases eq_or_ne k "mpris:artUrl" with h2 | h2
  · rw [if_pos h2]
    cases v <;> first
      | rfl
      | (rename_i s; rcases hp : parseRFC3339Year s with _ | y <;> simp [hp])
  rw [if_neg h2]
  rcases eq_or_ne k "xesam:album" with h3 | h3
  · rw [if_pos h3]
    cases v <;> first
      | rfl
      | (rename_i s; rcases hp : parseRFC3339Year s with _ | y <;> simp [hp])
  rw [if_neg h3]
  rcases eq_or_ne k "xesam:albumArtist" with h4 | h4
  · rw [if_pos h4]
    cases v <;> first
      | rfl
      | (rename_i s; rcases hp : parseRFC3339Year s with _ | y <;> simp [hp])
  rw [if_neg h4]
  rcases eq_or_ne k "xesam:artist" with h5 | h5
  · rw [if_pos h5]
    cases v <;> first
      | rfl
      | (rename_i s; rcases hp : parseRFC3339Year s with _ | y <;> simp [hp])
  rw [if_neg h5]
  rcases eq_or_ne k "xesam:contentCreated" with h6 | h6
  · rw [if_pos h6]
    cases v <;> first
      | rfl
      | (rename_i s; rcases hp : parseRFC3339Year s with _ | y <;> simp [hp])
  rw [if_neg h6]
  rcases eq_or_ne k "xesam:genre" with h7 | h7
  · rw [if_pos h7]
    cases v <;> first
      | rfl
      | (rename_i s; rcases hp : parseRFC3339Year s with _ | y <;> simp [hp])
  rw [if_neg h7]
  rcases eq_or_ne k "xesam:title" with h8 | h8
  · rw [if_pos h8]
    cases v <;> first
      | rfl
      | (rename_i s; rcases hp : parseRFC3339Year s with _ | y <;> simp [hp])
  rw [if_neg h8]
  rw [if_neg hk]

theorem decodeEntry_ID_eq (m : Media) (v : DBusValue) :
    (decodeEntry m ("mpris:trackid", v)).ID = (DBusValue.asStr v).getD m.ID := by
  simp only [decodeEntry]
  cases v <;> rfl

theorem decodeEntry_Length_eq (m : Media) (v : DBusValue) :
    (decodeEntry m ("mpris:length", v)).Length = (lenVal v).getD m.Length := by
  simp only [decodeEntry]
  cases v <;> rfl

theorem decodeEntry_ArtURL_eq (m : Media) (v : DBusValue) :
    (decodeEntry m ("mpris:artUrl", v)).ArtURL = (DBusValue.asStr v).getD m.ArtURL := by
  simp only [decodeEntry]
  cases v <;> rfl

theorem decodeEntry_Album_eq (m : Media) (v : DBusValue) :
    (decodeEntry m ("xesam:album", v)).Album = (DBusValue.asStr v).getD m.Album := by
  simp only [decodeEntry]
  cases v <;> rfl

theorem decodeEntry_AlbumArtist_eq (m : Media) (v : DBusValue) :
    (decodeEntry m ("xesam:albumArtist", v)).AlbumArtist = (DBusValue.asStr v).getD m.AlbumArtist := by
  simp only [decodeEntry]
  cases v <;> rfl

theorem decodeEntry_Artist_eq (m : Media) (v : DBusValue) :
    (decodeEntry m ("xesam:artist", v)).Artist = (artistVal v).getD m.Artist := by
  simp only [decodeEntry]
  cases v <;> rfl

theorem decodeEntry_Year_eq (m : Media) (v : DBusValue) :
    (decodeEntry m ("xesam:contentCreated", v)).Year = (yearVal v).getD m.Year := by
  simp only [decodeEntry]
  cases v <;> try rfl
  rename_i s
  rcases hp : parseRFC3339Year s with _ | y <;> simp [yearVal, hp]

theorem decodeEntry_Genre_eq (m : Media) (v : DBusValue) :
    (decodeEntry m ("xesam:genre", v)).Genre = (genreVal v).getD m.Genre := by
  simp only [decodeEntry]
  cases v <;> rfl

theorem decodeEntry_Title_eq (m : Media) (v : DBusValue) :
    (decodeEntry m ("xesam:title", v)).Title = (DBusValue.asStr v).getD m.Title := by
  simp only [decodeEntry]
  cases v <;> rfl

theorem decodeEntry_URL_eq (m : Media) (v : DBusValue) :
    (decodeEntry m ("xesam:url", v)).URL = (DBusValue.asStr v).getD m.URL := by
  simp only [decodeEntry]
  cases v <;> rfl

theorem decodeEntry_ID (m : Media) (kv : String × DBusValue) :
    (decodeEntry m kv).ID = optUpd (keyedUpd "mpris:trackid" DBusValue.asStr) m.ID kv := by
  rcases kv with ⟨k, v⟩
  rcases eq_or_ne k "mpris:trackid" with h | h
  · subst h
    rw [decodeEntry_ID_eq, optUpd_keyed_eq]
  · rw [decodeEntry_ID_ne m k v h, optUpd_keyed_ne "mpris:trackid" DBusValue.asStr v _ h]

theorem decodeEntry_Length (m : Media) (kv : String × DBusValue) :
    (decodeEntry m kv).Length = optUpd (keyedUpd "mpris:length" lenVal) m.Length kv := by
  rcases kv with ⟨k, v⟩
  rcases eq_or_ne k "mpris:length" with h | h
  · subst h
    rw [decodeEntry_Length_eq, optUpd_keyed_eq]
  · rw [decodeEntry_Length_ne m k v h, optUpd_keyed_ne "mpris:length" lenVal v _ h]

theorem decodeEntry_ArtURL (m : Media) (kv : String × DBusValue) :
    (decodeEntry m kv).ArtURL = optUpd (keyedUpd "mpris:artUrl" DBusValue.asStr) m.ArtURL kv := by
  rcases kv with ⟨k, v⟩
  rcases eq_or_ne k "mpris:artUrl" with h | h
  · subst h
    rw [decodeEntry_ArtURL_eq, optUpd_keyed_eq]
  · rw [decodeEntry_ArtURL_ne m k v h, optUpd_keyed_ne "mpris:artUrl" DBusValue.asStr v _ h]

theorem decodeEntry_Album (m : Media) (kv : String × DBusValue) :
    (decodeEntry m kv).Album = optUpd (keyedUpd "xesam:album" DBusValue.asStr) m.Album kv := by
  rcases kv with ⟨k, v⟩
  rcases eq_or_ne k "xesam:album" with h | h
  · subst h
    rw [decodeEntry_Album_eq, optUpd_keyed_eq]
  · rw [decodeEntry_Album_ne m k v h, optUpd_keyed_ne "xesam:album" DBusValue.asStr v _ h]

theorem decodeEntry_AlbumArtist (m : Media) (kv : String × DBusValue) :
    (decodeEntry m kv).AlbumArtist = optUpd (keyedUpd "xesam:albumArtist" DBusValue.asStr) m.AlbumArtist kv := by
  rcases kv with ⟨k, v⟩
  rcases eq_or_ne k "xesam:albumArtist" with h | h
  · subst h
    rw [decodeEntry_AlbumArtist_eq, optUpd_keyed_eq]
  · rw [decodeEntry_AlbumArtist_ne m k v h, optUpd_keyed_ne "xesam:albumArtist" DBusValue.asStr v _ h]

theorem decodeEntry_Artist (m : Media) (kv : String × DBusValue) :
    (decodeEntry m kv).Artist = optUpd (keyedUpd "xesam:artist" artistVal) m.Artist kv := by
  rcases kv with ⟨k, v⟩
  rcases eq_or_ne k "xesam:artist" with h | h
  · subst h
    rw [decodeEntry_Artist_eq, optUpd_keyed_eq]
  · rw [decodeEntry_Artist_ne m k v h, optUpd_keyed_ne "xesam:artist" artistVal v _ h]

theorem decodeEntry_Year (m : Media) (kv : String × DBusValue) :
    (decodeEntry m kv).Year = optUpd (keyedUpd "xesam:contentCreated" yearVal) m.Year kv := by
  rcases kv with ⟨k, v⟩
  rcases eq_or_ne k "xesam:contentCreated" with h | h
  · subst h
    rw [decodeEntry_Year_eq, optUpd_keyed_eq]
  · rw [decodeEntry_Year_ne m k v h, optUpd_keyed_ne "xesam:contentCreated" yearVal v _ h]

theorem decodeEntry_Genre (m : Media) (kv : String × DBusValue) :
    (decodeEntry m kv).Genre = optUpd (keyedUpd "xesam:genre" genreVal) m.Genre kv := by
  rcases kv with ⟨k, v⟩
  rcases eq_or_ne k "xesam:genre" with h | h
  · subst h
    rw [decodeEntry_Genre_eq, optUpd_keyed_eq]
  · rw [decodeEntry_Genre_ne m k v h, optUpd_keyed_ne "xesam:genre" genreVal v _ h]

theorem decodeEntry_Title (m : Media) (kv : String × DBusValue) :
    (decodeEntry m kv).Title = optUpd (keyedUpd "xesam:title" DBusValue.asStr) m.Title kv := by
  rcases kv with ⟨k, v⟩
  rcases eq_or_ne k "xesam:title" with h | h
  · subst h
    rw [decodeEntry_Title_eq, optUpd_keyed_eq]
  · rw [decodeEntry_Title_ne m k v h, optUpd_keyed_ne "xesam:title" DBusValue.asStr v _ h]

theorem decodeEntry_URL (m : Media) (kv : String × DBusValue) :
    (decodeEntry m kv).URL = optUpd (keyedUpd "xesam:url" DBusValue.asStr) m.URL kv := by
  rcases kv with ⟨k, v⟩
  rcases eq_or_ne k "xesam:url" with h | h
  · subst h
    rw [decodeEntry_URL_eq, optUpd_keyed_eq]
  · rw [decodeEntry_URL_ne m k v h, optUpd_keyed_ne "xesam:url" DBusValue.asStr v _ h]

theorem decodeFold_ID (entries : List (String × DBusValue)) (m0 : Media) :
    (List.foldl decodeEntry m0 entries).ID =
      List.foldl (optUpd (keyedUpd "mpris:trackid" DBusValue.asStr)) m0.ID entries :=
  foldl_proj decodeEntry Media.ID (optUpd (keyedUpd "mpris:trackid" DBusValue.asStr))
    (fun b kv => decodeEntry_ID b kv) entries m0

theorem decodeFold_Length (entries : List (String × DBusValue)) (m0 : Media) :
    (List.foldl decodeEntry m0 entries).Length =
      List.foldl (optUpd (keyedUpd "mpris:length" lenVal)) m0.Length entries :=
  foldl_proj decodeEntry Media.Length (optUpd (keyedUpd "mpris:length" lenVal))
    (fun b kv => decodeEntry_Length b kv) entries m0

theorem decodeFold_ArtURL (entries : List (String × DBusValue)) (m0 : Media) :
    (List.foldl decodeEntry m0 entries).ArtURL =
      List.foldl (optUpd (keyedUpd "mpris:artUrl" DBusValue.asStr)) m0.ArtURL entries :=
  foldl_proj decodeEntry Media.ArtURL (optUpd (keyedUpd "mpris:artUrl" DBusValue.asStr))
    (fun b kv => decodeEntry_ArtURL b kv) entries m0

theorem decodeFold_Album (entries : List (String × DBusValue)) (m0 : Media) :
    (List.foldl decodeEntry m0 entries).Album =
      List.foldl (optUpd (keyedUpd "xesam:album" DBusValue.asStr)) m0.Album entries :=
  foldl_proj decodeEntry Media.Album (optUpd (keyedUpd "xesam:album" DBusValue.asStr))
    (fun b kv => decodeEntry_Album b kv) entries m0

theorem decodeFold_AlbumArtist (entries : List (String × DBusValue)) (m0 : Media) :
    (List.foldl decodeEntry m0 entries).AlbumArtist =
      List.foldl (optUpd (keyedUpd "xesam:albumArtist" DBusValue.asStr)) m0.AlbumArtist entries :=
  foldl_proj decodeEntry Media.AlbumArtist (optUpd (keyedUpd "xesam:albumArtist" DBusValue.asStr))
    (fun b kv => decodeEntry_AlbumArtist b kv) entries m0

theorem decodeFold_Artist (entries : List (String × DBusValue)) (m0 : Media) :
    (List.foldl decodeEntry m0 entries).Artist =
      List.foldl (optUpd (keyedUpd "xesam:artist" artistVal)) m0.Artist entries :=
  foldl_proj decodeEntry Media.Artist (optUpd (keyedUpd "xesam:artist" artistVal))
    (fun b kv => decodeEntry_Artist b kv) entries m0

theorem decodeFold_Year (entries : List (String × DBusValue)) (m0 : Media) :
    (List.foldl decodeEntry m0 entries).Year =
      List.foldl (optUpd (keyedUpd "xesam:contentCreated" yearVal)) m0.Year entries :=
  foldl_proj decodeEntry Media.Year (optUpd (keyedUpd "xesam:contentCreated" yearVal))
    (fun b kv => decodeEntry_Year b kv) entries m0

theorem decodeFold_Genre (entries : List (String × DBusValue)) (m0 : Media) :
    (List.foldl decodeEntry m0 entries).Genre =
      List.foldl (optUpd (keyedUpd "xesam:genre" genreVal)) m0.Genre entries :=
  foldl_proj decodeEntry Media.Genre (optUpd (keyedUpd "xesam:genre" genreVal))
    (fun b kv => decodeEntry_Genre b kv) entries m0

theorem decodeFold_Title (entries : List (String × DBusValue)) (m0 : Media) :
    (List.foldl decodeEntry m0 entries).Title =
      List.foldl (optUpd (keyedUpd "xesam:title" DBusValue.asStr)) m0.Title entries :=
  foldl_proj decodeEntry Media.Title (optUpd (keyedUpd "xesam:title" DBusValue.asStr))
    (fun b kv => decodeEntry_Title b kv) entries m0

theorem decodeFold_URL (entries : List (String × DBusValue)) (m0 : Media) :
    (List.foldl decodeEntry m0 entries).URL =
      List.foldl (optUpd (keyedUpd "xesam:url" DBusValue.asStr)) m0.URL entries :=
  foldl_proj decodeEntry Media.URL (optUpd (keyedUpd "xesam:url" DBusValue.asStr))
    (fun b kv => decodeEntry_URL b kv) entries m0

theorem applyFst_Shuffle_ne (p : Properties) (k : String) (v : DBusValue)
    (hk : k ≠ "Shuffle") : ((applyKey p k v).1).Shuffle = p.Shuffle := by
  simp only [applyKey]
  rw [if_neg hk]
  rcases eq_or_ne k "PlaybackStatus" with h2 | h2
  · rw [if_pos h2]
    cases v <;> (try split) <;> (try split) <;> rfl
  rw [if_neg h2]
  rcases eq_or_ne k "LoopStatus" with h3 | h3
  · rw [if_pos h3]
    cases v <;> (try split) <;> (try split) <;> rfl
  rw [if_neg h3]
  rcases eq_or_ne k "Metadata" with h4 | h4
  · rw [if_pos h4]
    cases v <;> (try split) <;> (try split) <;> rfl
  rw [if_neg h4]

theorem applyFst_PlaybackStatus_ne (p : Properties) (k : String) (v : DBusValue)
    (hk : k ≠ "PlaybackStatus") :
    ((applyKey p k v).1).PlaybackStatus = p.PlaybackStatus := by
  simp only [applyKey]
  rcases eq_or_ne k "Shuffle" with h1 | h1
  · rw [if_pos h1]
    cases v <;> (try split) <;> (try split) <;> rfl
  rw [if_neg h1]
  rw [if_neg hk]
  rcases eq_or_ne k "LoopStatus" with h3 | h3
  · rw [if_pos h3]
    cases v <;> (try split) <;> (try split) <;> rfl
  rw [if_neg h3]
  rcases eq_or_ne k "Metadata" with h4 | h4
  · rw [if_pos h4]
    cases v <;> (try split) <;> (try split) <;> rfl
  rw [if_neg h4]

theorem applyFst_LoopStatus_ne (p : Properties) (k : String) (v : DBusValue)
    (hk : k ≠ "LoopStatus") : ((applyKey p k v).1).LoopStatus = p.LoopStatus := by
  simp only [applyKey]
  rcases eq_or_ne k "Shuffle" with h1 | h1
  · rw [if_pos h1]
    cases v <;> (try split) <;> (try split) <;> rfl
  rw [if_neg h1]
  rcases eq_or_ne k "PlaybackStatus" with h2 | h2
  · rw [if_pos h2]
    cases v <;> (try split) <;> (try split) <;> rfl
  rw [if_neg h2]
  rw [if_neg hk]
  rcases eq_or_ne k "Metadata" with h4 | h4
  · rw [if_pos h4]
    cases v <;> (try split) <;> (try split) <;> rfl
  rw [if_neg h4]

theorem applyFst_Media_ne (p : Properties) (k : String) (v : DBusValue)
    (hk : k ≠ "Metadata") : ((applyKey p k v).1).Media = p.Media := by
  simp only [applyKey]
  rcases eq_or_ne k "Shuffle" with h1 | h1
  · rw [if_pos h1]
    cases v <;> (try split) <;> (try split) <;> rfl
  rw [if_neg h1]
  rcases eq_or_ne k "PlaybackStatus" with h2 | h2
  · rw [if_pos h2]
    cases v <;> (try split) <;> (try split) <;> rfl
  rw [if_neg h2]
  rcases eq_or_ne k "LoopStatus" with h3 | h3
  · rw [if_pos h3]
    cases v <;> (try split) <;> (try split) <;> rfl
  rw [if_neg h3]
  rw [if_neg hk]

theorem applyFst_Shuffle_eq (p : Properties) (v : DBusValue) :
    ((applyKey p "Shuffle" v).1).Shuffle = (shVal v).getD p.Shuffle := by
  simp only [applyKey]
  cases v <;> try rfl
  rename_i b
  by_cases hb : p.Shuffle = b <;> simp [hb, shVal]

theorem applyFst_PlaybackStatus_eq (p : Properties) (v : DBusValue) :
    ((applyKey p "PlaybackStatus" v).1).PlaybackStatus =
      (pbVal v).getD p.PlaybackStatus := by
  simp only [applyKey]
  cases v <;> try rfl
  rename_i s
  by_cases hv : PlaybackStatus.IsValid s <;> by_cases he : p.PlaybackStatus = s <;>
    simp [pbVal, hv, he]

theorem applyFst_LoopStatus_eq (p : Properties) (v : DBusValue) :
    ((applyKey p "LoopStatus" v).1).LoopStatus = (lsVal v).getD p.LoopStatus := by
  simp only [applyKey]
  cases v <;> try rfl
  rename_i s
  by_cases he : p.LoopStatus = loopCoerce s <;> simp [lsVal, he]

theorem applyFst_Media_eq (p : Properties) (v : DBusValue) :
    ((applyKey p "Metadata" v).1).Media = mediaApply p.Media "Metadata" v := by
  simp only [applyKey, mediaApply]
  cases v <;> rfl

theorem mediaApply_ne (m : Media) (k : String) (v : DBusValue)
    (hk : k ≠ "Metadata") : mediaApply m k v = m := by
  simp only [mediaApply]
  rw [if_neg hk]

theorem applyFst_Shuffle (p : Properties) (kv : String × DBusValue) :
    ((applyKey p kv.1 kv.2).1).Shuffle =
      optUpd (keyedUpd "Shuffle" shVal) p.Shuffle kv := by
  rcases kv with ⟨k, v⟩
  rcases eq_or_ne k "Shuffle" with h | h
  · subst h
    rw [applyFst_Shuffle_eq, optUpd_keyed_eq]
  · rw [applyFst_Shuffle_ne p k v h, optUpd_keyed_ne "Shuffle" shVal v _ h]

theorem applyFst_PlaybackStatus (p : Properties) (kv : String × DBusValue) :
    ((applyKey p kv.1 kv.2).1).PlaybackStatus =
      optUpd (keyedUpd "PlaybackStatus" pbVal) p.PlaybackStatus kv := by
  rcases kv with ⟨k, v⟩
  rcases eq_or_ne k "PlaybackStatus" with h | h
  · subst h
    rw [applyFst_PlaybackStatus_eq, optUpd_keyed_eq]
  · rw [applyFst_PlaybackStatus_ne p k v h,
      optUpd_keyed_ne "PlaybackStatus" pbVal v _ h]

theorem applyFst_LoopStatus (p : Properties) (kv : String × DBusValue) :
    ((applyKey p kv.1 kv.2).1).LoopStatus =
      optUpd (keyedUpd "LoopStatus" lsVal) p.LoopStatus kv := by
  rcases kv with ⟨k, v⟩
  rcases eq_or_ne k "LoopStatus" with h | h
  · subst h
    rw [applyFst_LoopStatus_eq, optUpd_keyed_eq]
  · rw [applyFst_LoopStatus_ne p k v h, optUpd_keyed_ne "LoopStatus" lsVal v _ h]

theorem applyFst_Media (p : Properties) (kv : String × DBusValue) :
    ((applyKey p kv.1 kv.2).1).Media = mediaApply p.Media kv.1 kv.2 := by
  rcases kv with ⟨k, v⟩
  rcases eq_or_ne k "Metadata" with h | h
  · subst h
    exact applyFst_Media_eq p v
  · rw [applyFst_Media_ne p k v h, mediaApply_ne p.Media k v h]

theorem keyAccepted_other (p : Properties) (k : String) (v : DBusValue)
    (h1 : k ≠ "Shuffle") (h2 : k ≠ "PlaybackStatus") (h3 : k ≠ "LoopStatus")
    (h4 : k ≠ "Metadata") : keyAccepted p k v = false := by
  simp only [keyAccepted]
  rw [if_neg h1, if_neg h2, if_neg h3, if_neg h4]

theorem applyKey_snd (p : Properties) (k : String) (v : DBusValue) :
    (applyKey p k v).2 = if keyAccepted p k v then [k] else [] := by
  simp only [applyKey]
  rcases eq_or_ne k "Shuffle" with h1 | h1
  · subst h1
    cases v <;> try (simp [keyAccepted]; done)
    rename_i b
    by_cases hb : p.Shuffle = b <;> simp [keyAccepted, hb]
  rw [if_neg h1]
  rcases eq_or_ne k "PlaybackStatus" with h2 | h2
  · subst h2
    cases v <;> try (simp [keyAccepted]; done)
    rename_i s
    by_cases hv : PlaybackStatus.IsValid s <;> by_cases he : p.PlaybackStatus = s <;>
      simp [keyAccepted, hv, he]
  rw [if_neg h2]
  rcases eq_or_ne k "LoopStatus" with h3 | h3
  · subst h3
    cases v <;> try (simp [keyAccepted]; done)
    rename_i s
    by_cases he : p.LoopStatus = loopCoerce s <;> simp [keyAccepted, he]
  rw [if_neg h3]
  rcases eq_or_ne k "Metadata" with h4 | h4
  · subst h4
    cases v <;> simp [keyAccepted, decodeMetadata, DBusValue.isDict]
  rw [if_neg h4, keyAccepted_other p k v h1 h2 h3 h4]
  rfl

theorem updateFst_foldl (p : Properties) (props : List (String × DBusValue)) :
    (UpdateProperties p props).1 =
      List.foldl (fun q kv => (applyKey q kv.1 kv.2).1) p props := by
  induction props generalizing p with
  | nil => rfl
  | cons kv rest ih =>
    rcases kv with ⟨k, v⟩
    rw [List.foldl_cons]
    simp only [UpdateProperties]
    exact ih _

theorem update_Shuffle (p : Properties) (props : List (String × DBusValue)) :
    (UpdateProperties p props).1.Shuffle =
      List.foldl (optUpd (keyedUpd "Shuffle" shVal)) p.Shuffle props := by
  rw [updateFst_foldl]
  exact foldl_proj _ Properties.Shuffle _ (fun b kv => applyFst_Shuffle b kv) props p

theorem update_PlaybackStatus (p : Properties) (props : List (String × DBusValue)) :
    (UpdateProperties p props).1.PlaybackStatus =
      List.foldl (optUpd (keyedUpd "PlaybackStatus" pbVal)) p.PlaybackStatus props := by
  rw [updateFst_foldl]
  exact foldl_proj _ Properties.PlaybackStatus _
    (fun b kv => applyFst_PlaybackStatus b kv) props p

theorem update_LoopStatus (p : Properties) (props : List (String × DBusValue)) :
    (UpdateProperties p props).1.LoopStatus =
      List.foldl (optUpd (keyedUpd "LoopStatus" lsVal)) p.LoopStatus props := by
  rw [updateFst_foldl]
  exact foldl_proj _ Properties.LoopStatus _
    (fun b kv => applyFst_LoopStatus b kv) props p

theorem update_Media (p : Properties) (props : List (String × DBusValue)) :
    (UpdateProperties p props).1.Media =
      List.foldl (fun m kv => mediaApply m kv.1 kv.2) p.Media props := by
  rw [updateFst_foldl]
  exact foldl_proj _ Properties.Media _ (fun b kv => applyFst_Media b kv) props p

theorem changeList_sublist (p : Properties) (props : List (String × DBusValue)) :
    List.Sublist (UpdateProperties p props).2 (props.map Prod.fst) := by
  induction props generalizing p with
  | nil => simp [UpdateProperties]
  | cons kv rest ih =>
    rcases kv with ⟨k, v⟩
    simp only [UpdateProperties, List.map_cons]
    rw [applyKey_snd]
    by_cases hc : keyAccepted p k v = true
    · rw [if_pos hc]
      exact (ih _).cons₂ k
    · rw [if_neg hc]
      simp only [List.nil_append]
      exact (ih _).cons k

theorem changeList_mem_iff {α : Type} (K : String) (proj : Properties → α)
    (hacc : ∀ p q v, proj p = proj q → keyAccepted p K v = keyAccepted q K v)
    (hframe : ∀ p k v, k ≠ K → proj ((applyKey p k v).1) = proj p)
    (props : List (String × DBusValue)) (p : Properties)
    (hnd : (props.map Prod.fst).Nodup) :
    K ∈ (UpdateProperties p props).2 ↔
      ∃ v, (K, v) ∈ props ∧ keyAccepted p K v = true := by
  induction props generalizing p with
  | nil => simp [UpdateProperties]
  | cons kv rest ih =>
    rcases kv with ⟨k, v⟩
    rw [List.map_cons, List.nodup_cons] at hnd
    simp only [UpdateProperties]
    rw [applyKey_snd]
    rcases eq_or_ne k K with hk | hk
    · subst hk
      have hnotin : k ∉ (UpdateProperties (applyKey p k v).1 rest).2 := by
        intro hmem
        exact hnd.1 ((changeList_sublist _ rest).subset hmem)
      constructor
      · intro hmem
        rcases List.mem_append.mp hmem with h | h
        · by_cases hc : keyAccepted p k v = true
          · exact ⟨v, List.mem_cons_self _ _, hc⟩
          · rw [if_neg hc] at h
            exact absurd h (List.not_mem_nil k)
        · exact absurd h hnotin
      · rintro ⟨w, hw, hacc'⟩
        rcases List.mem_cons.mp hw with h | h
        · injection h with h1 h2
          subst h2
          rw [if_pos hacc']
          exact List.mem_append.mpr (Or.inl (List.mem_singleton.mpr rfl))
        · exact absurd (List.mem_map_of_mem Prod.fst h) hnd.1
    · have hiff := ih ((applyKey p k v).1) hnd.2
      have hsame : ∀ w, keyAccepted ((applyKey p k v).1) K w = keyAccepted p K w :=
        fun w => hacc _ _ w (hframe p k v hk)
      constructor
      · intro hmem
        rcases List.mem_append.mp hmem with h | h
        · by_cases hc : keyAccepted p k v = true
          · rw [if_pos hc] at h
            exact absurd (List.mem_singleton.mp h) hk.symm
          · rw [if_neg hc] at h
            exact absurd h (List.not_mem_nil K)
        · rcases hiff.mp h with ⟨w, hw, hacc'⟩
          exact ⟨w, List.mem_cons_of_mem _ hw, (hsame w).symm.trans hacc'⟩
      · rintro ⟨w, hw, hacc'⟩
        rcases List.mem_cons.mp hw with h | h
        · injection h with h1 h2
          exact absurd h1.symm hk
        · refine List.mem_append.mpr (Or.inr ?_)
          exact hiff.mpr ⟨w, h, (hsame w).trans hacc'⟩

theorem changeList_Shuffle_iff (props : List (String × DBusValue)) (p : Properties)
    (hnd : (props.map Prod.fst).Nodup) :
    "Shuffle" ∈ (UpdateProperties p props).2 ↔
      ∃ v, ("Shuffle", v) ∈ props ∧ keyAccepted p "Shuffle" v = true := by
  refine changeList_mem_iff "Shuffle" Properties.Shuffle ?_ ?_ props p hnd
  · intro p q w h
    cases w <;> simp [keyAccepted, h]
  · intro p k v hk
    exact applyFst_Shuffle_ne p k v hk

theorem changeList_PlaybackStatus_iff (props : List (String × DBusValue))
    (p : Properties) (hnd : (props.map Prod.fst).Nodup) :
    "PlaybackStatus" ∈ (UpdateProperties p props).2 ↔
      ∃ v, ("PlaybackStatus", v) ∈ props ∧
        keyAccepted p "PlaybackStatus" v = true := by
  refine changeList_mem_iff "PlaybackStatus" Properties.PlaybackStatus ?_ ?_ props p hnd
  · intro p q w h
    cases w <;> simp [keyAccepted, h]
  · intro p k v hk
    exact applyFst_PlaybackStatus_ne p k v hk

theorem changeList_LoopStatus_iff (props : List (String × DBusValue))
    (p : Properties) (hnd : (props.map Prod.fst).Nodup) :
    "LoopStatus" ∈ (UpdateProperties p props).2 ↔
      ∃ v, ("LoopStatus", v) ∈ props ∧ keyAccepted p "LoopStatus" v = true := by
  refine changeList_mem_iff "LoopStatus" Properties.LoopStatus ?_ ?_ props p hnd
  · intro p q w h
    cases w <;> simp [keyAccepted, h]
  · intro p k v hk
    exact applyFst_LoopStatus_ne p k v hk

theorem changeList_Metadata_iff (props : List (String × DBusValue))
    (p : Properties) (hnd : (props.map Prod.fst).Nodup) :
    "Metadata" ∈ (UpdateProperties p props).2 ↔
      ∃ v, ("Metadata", v) ∈ props ∧ DBusValue.isDict v = true := by
  have base := changeList_mem_iff "Metadata" (fun _ => (0 : Nat)) ?hacc ?hframe props p hnd
  case hacc =>
    intro p q w h
    simp [keyAccepted]
  case hframe =>
    intro p k v hk
    rfl
  rw [base]
  constructor
  · rintro ⟨w, hw, hacc'⟩
    refine ⟨w, hw, ?_⟩
    simpa [keyAccepted] using hacc'
  · rintro ⟨w, hw, hdict⟩
    refine ⟨w, hw, ?_⟩
    simpa [keyAccepted] using hdict

theorem mem_keyed_unique {l : List (String × DBusValue)}
    (hnd : (l.map Prod.fst).Nodup) {K : String} {v w : DBusValue}
    (h1 : (K, v) ∈ l) (h2 : (K, w) ∈ l) : v = w := by
  induction l with
  | nil => exact absurd h1 (List.not_mem_nil _)
  | cons kv rest ih =>
    rw [List.map_cons, List.nodup_cons] at hnd
    rcases List.mem_cons.mp h1 with ha | ha
    · subst ha
      rcases List.mem_cons.mp h2 with hb | hb
      · injection hb with h3 h4
        exact h4.symm
      · exact absurd (List.mem_map_of_mem Prod.fst hb) hnd.1
    · rcases List.mem_cons.mp h2 with hb | hb
      · subst hb
        exact absurd (List.mem_map_of_mem Prod.fst ha) hnd.1
      · exact ih hnd.2 ha hb

theorem mediaFold_absent (m0 : Media) (props : List (String × DBusValue))
    (h : "Metadata" ∉ props.map Prod.fst) :
    List.foldl (fun m kv => mediaApply m kv.1 kv.2) m0 props = m0 := by
  refine foldl_id_of_forall _ props m0 fun b kv hkv => ?_
  refine mediaApply_ne b kv.1 kv.2 fun he => h ?_
  have hm : kv.1 ∈ props.map Prod.fst := List.mem_map_of_mem Prod.fst hkv
  rwa [he] at hm

theorem wrap8_bounds (x : Int) : -128 ≤ wrap8 x ∧ wrap8 x ≤ 127 := by
  unfold wrap8
  have h1 := Int.emod_nonneg (x + 128) (by norm_num : (256 : ℤ) ≠ 0)
  have h2 := Int.emod_lt_of_pos (x + 128) (by norm_num : (0 : ℤ) < 256)
  omega

/-- C7: the metadata decoder returns an error exactly when the top-level
value is not a key/value map of variants, and succeeds (producing a record)
whenever it is such a map, regardless of the types of the individual
entries. -/
theorem claim7_decode_error_iff_not_dict (v : DBusValue) (m0 : Media) :
    ((∃ e, decodeMetadata v m0 = Except.error e) ↔ DBusValue.isDict v = false) ∧
    ((∃ m', decodeMetadata v m0 = Except.ok m') ↔ DBusValue.isDict v = true) := by
  cases v <;> simp [decodeMetadata, DBusValue.isDict]

/-- C8: `HasValidDestinationName` accepts `org.mpris.MediaPlayer2.spotify`
and `org.mpris.MediaPlayer2.vlc.instance1234` and rejects
`org.mpris.MediaPlayer2.` (empty suffix) and `com.example.spotify` (wrong
leading part). -/
theorem claim8_destination_name_examples :
    HasValidDestinationName "org.mpris.MediaPlayer2.spotify" = true ∧
    HasValidDestinationName "org.mpris.MediaPlayer2.vlc.instance1234" = true ∧
    HasValidDestinationName "org.mpris.MediaPlayer2." = false ∧
    HasValidDestinationName "com.example.spotify" = false := by
  refine ⟨?_, ?_, ?_, ?_⟩ <;> decide

/-- C2 counterexample: a presence-change notification whose subject is the
endpoint's own bus name, whose old-owner field is `:1.7` and whose new-owner
field is empty (the normal shape when a player exits) does make the listener
break out of its loop (`some true`), refuting the claim that teardown occurs
if and only if the new-owner field (the third body argument) is non-empty. -/
theorem claim2_counterexample :
    ¬ (ownerChangedBreaks "org.mpris.MediaPlayer2.spotify"
        [DBusValue.str "org.mpris.MediaPlayer2.spotify", DBusValue.str ":1.7",
          DBusValue.str ""] = some true ↔ ("" : String) ≠ "") := by
  decide

/-- C2 amended: for a well-formed presence-change notification
`(name, oldOwner, newOwner)`, the listener tears down if and only if the
subject name equals the endpoint's bus name and the notification's
*second* body argument — the prior-owner field, which the code reads — is a
non-empty string; notifications for other names leave the listener
running. -/
theorem claim2_teardown_iff_old_owner_nonempty
    (pName name oldOwner newOwner : String) :
    (name = pName →
      (ownerChangedBreaks pName
          [DBusValue.str name, DBusValue.str oldOwner, DBusValue.str newOwner] =
        some true ↔ oldOwner ≠ "")) ∧
    (name ≠ pName →
      ownerChangedBreaks pName
          [DBusValue.str name, DBusValue.str oldOwner, DBusValue.str newOwner] =
        some false) := by
  constructor
  · intro h
    subst h
    simp [ownerChangedBreaks, DBusValue.asStr]
  · intro h
    simp [ownerChangedBreaks, DBusValue.asStr, h]

/-- Concrete instantiation of the amended C2 statement. -/
theorem claim2_witness :
    ownerChangedBreaks "org.mpris.MediaPlayer2.spotify"
        [DBusValue.str "org.mpris.MediaPlayer2.spotify", DBusValue.str ":1.4",
          DBusValue.str ":1.9"] = some true := by
  have h := (claim2_teardown_iff_old_owner_nonempty "org.mpris.MediaPlayer2.spotify"
    "org.mpris.MediaPlayer2.spotify" ":1.4" ":1.9").1 rfl
  exact h.mpr (by decide)

/-- C5 counterexample: an endpoint whose cached status is already `Paused`
returns from `Pause()` with no error and no remote interaction at all, even
though its `CanPause` capability query fails — refuting the claim that every
endpoint with a failing or false `CanPause` gets an unsupported-operation
error from `Pause()`. -/
theorem claim5_counterexample :
    (CanPause envAllFail).1 = false ∧
    (Pause pausedProps envAllFail).1 = Except.ok () := by
  exact ⟨rfl, rfl⟩

/-- C5 amended: for an endpoint whose cached status is not already `Paused`,
a failing or false `CanPause` capability query makes `Pause()` return the
unsupported-operation error after performing only the capability property
query and no method invocation. -/
theorem claim5_pause_unsupported (p : Properties) (env : RemoteEnv)
    (hs : p.PlaybackStatus ≠ PlaybackStatusPaused)
    (hc : (CanPause env).1 = false) :
    (Pause p env).1 = Except.error (MprisError.unsupported "Pause") ∧
    (Pause p env).2 = [RemoteOp.getProp "CanPause"] ∧
    ∀ m, RemoteOp.call m ∉ (Pause p env).2 := by
  have h1 : Pause p env =
      (Except.error (MprisError.unsupported "Pause"), (CanPause env).2) := by
    simp only [Pause]
    rw [if_neg hs, if_pos hc]
  refine ⟨by rw [h1], by rw [h1]; rfl, ?_⟩
  intro m hm
  rw [h1] at hm
  simp [CanPause, canPlayerProp] at hm

/-- Concrete instantiation of the amended C5 statement. -/
theorem claim5_witness :
    (Pause stoppedProps envAllFail).1 =
      Except.error (MprisError.unsupported "Pause") :=
  (claim5_pause_unsupported stoppedProps envAllFail (by decide) rfl).1

/-- C6: when the cached playback status already equals the target state,
`Play`, `Pause` and `Stop` return no error and perform neither a capability
query nor a remote method invocation (their interaction trace is empty). -/
theorem claim6_idempotent_noop (p : Properties) (env : RemoteEnv) :
    (p.PlaybackStatus = PlaybackStatusPlaying → Play p env = (Except.ok (), [])) ∧
    (p.PlaybackStatus = PlaybackStatusPaused → Pause p env = (Except.ok (), [])) ∧
    (p.PlaybackStatus = PlaybackStatusStopped → Stop p env = (Except.ok (), [])) := by
  refine ⟨fun h => ?_, fun h => ?_, fun h => ?_⟩
  · simp only [Play]
    rw [if_pos h]
  · simp only [Pause]
    rw [if_pos h]
  · simp only [Stop]
    rw [if_pos h]

/-- Concrete instantiation of the C6 statement at all three target states. -/
theorem claim6_witness :
    Play playingProps envAllFail = (Except.ok (), []) ∧
    Pause pausedProps envAllFail = (Except.ok (), []) ∧
    Stop stoppedProps envAllFail = (Except.ok (), []) :=
  ⟨(claim6_idempotent_noop playingProps envAllFail).1 rfl,
    (claim6_idempotent_noop pausedProps envAllFail).2.1 rfl,
    (claim6_idempotent_noop stoppedProps envAllFail).2.2 rfl⟩

/-- C3: in any change batch with pairwise-distinct keys, a `PlaybackStatus`
entry whose string value is not a valid member leaves the prior status
unchanged and contributes nothing to the change-set, while a `LoopStatus`
entry whose string value is invalid is coerced to `None` and appears in the
change-set exactly when `None` differs from the prior loop status. -/
theorem claim3_invalid_enum_policy (p : Properties)
    (props : List (String × DBusValue)) (hnd : (props.map Prod.fst).Nodup) :
    (∀ s, ("PlaybackStatus", DBusValue.str s) ∈ props →
        PlaybackStatus.IsValid s = false →
        (UpdateProperties p props).1.PlaybackStatus = p.PlaybackStatus ∧
        "PlaybackStatus" ∉ (UpdateProperties p props).2) ∧
    (∀ s, ("LoopStatus", DBusValue.str s) ∈ props →
        LoopStatus.IsValid s = false →
        (UpdateProperties p props).1.LoopStatus = LoopStatusNone ∧
        ("LoopStatus" ∈ (UpdateProperties p props).2 ↔
          p.LoopStatus ≠ LoopStatusNone)) := by
  constructor
  · intro s hmem hval
    constructor
    · rw [update_PlaybackStatus,
        foldUpd_mem "PlaybackStatus" pbVal props p.PlaybackStatus _ hnd hmem]
      simp [pbVal, hval]
    · rw [changeList_PlaybackStatus_iff props p hnd]
      rintro ⟨w, hw, hacc⟩
      have hws : w = DBusValue.str s := mem_keyed_unique hnd hw hmem
      subst hws
      simp [keyAccepted, hval] at hacc
  · intro s hmem hval
    have hcoerce : loopCoerce s = LoopStatusNone := by
      simp [loopCoerce, hval]
    constructor
    · rw [update_LoopStatus,
        foldUpd_mem "LoopStatus" lsVal props p.LoopStatus _ hnd hmem]
      simp [lsVal, hcoerce]
    · rw [changeList_LoopStatus_iff props p hnd]
      constructor
      · rintro ⟨w, hw, hacc⟩
        have hws : w = DBusValue.str s := mem_keyed_unique hnd hw hmem
        subst hws
        simp [keyAccepted, hcoerce] at hacc
        exact hacc
      · intro h
        refine ⟨DBusValue.str s, hmem, ?_⟩
        simp [keyAccepted, hcoerce]
        exact h

/-- Concrete instantiation of the C3 statement: an invalid playback status
is dropped while an invalid loop status is coerced to `None` and reported. -/
theorem claim3_witness :
    (UpdateProperties trackLoopProps batchInvalid).1.PlaybackStatus =
      trackLoopProps.PlaybackStatus ∧
    "PlaybackStatus" ∉ (UpdateProperties trackLoopProps batchInvalid).2 ∧
    (UpdateProperties trackLoopProps batchInvalid).1.LoopStatus = LoopStatusNone ∧
    "LoopStatus" ∈ (UpdateProperties trackLoopProps batchInvalid).2 := by
  have h := claim3_invalid_enum_policy trackLoopProps batchInvalid (by decide)
  have ha := h.1 "Bogus" (by simp [batchInvalid]) (by decide)
  have hb := h.2 "Weird" (by simp [batchInvalid]) (by decide)
  exact ⟨ha.1, ha.2, hb.1, hb.2.mpr (by decide)⟩

/-- C4: applying the same batch (distinct keys) twice in a row yields a
second change-set with no `Shuffle`, `PlaybackStatus` or `LoopStatus` entry,
while `Metadata` is reported as changed on the second application whenever
its value is a well-shaped key/value structure. -/
theorem claim4_second_application (p : Properties)
    (props : List (String × DBusValue)) (hnd : (props.map Prod.fst).Nodup) :
    "Shuffle" ∉ (UpdateProperties (UpdateProperties p props).1 props).2 ∧
    "PlaybackStatus" ∉ (UpdateProperties (UpdateProperties p props).1 props).2 ∧
    "LoopStatus" ∉ (UpdateProperties (UpdateProperties p props).1 props).2 ∧
    (∀ v, ("Metadata", v) ∈ props → DBusValue.isDict v = true →
      "Metadata" ∈ (UpdateProperties (UpdateProperties p props).1 props).2) := by
  refine ⟨?_, ?_, ?_, ?_⟩
  · rw [changeList_Shuffle_iff props _ hnd]
    rintro ⟨w, hw, hacc⟩
    cases w <;> simp [keyAccepted] at hacc
    rename_i b
    have hval : (UpdateProperties p props).1.Shuffle = b := by
      rw [update_Shuffle, foldUpd_mem "Shuffle" shVal props p.Shuffle _ hnd hw]
      rfl
    exact hacc hval
  · rw [changeList_PlaybackStatus_iff props _ hnd]
    rintro ⟨w, hw, hacc⟩
    cases w <;> simp [keyAccepted] at hacc
    rename_i s
    have hval : (UpdateProperties p props).1.PlaybackStatus = s := by
      rw [update_PlaybackStatus,
        foldUpd_mem "PlaybackStatus" pbVal props p.PlaybackStatus _ hnd hw]
      simp [pbVal, hacc.1]
    exact hacc.2 hval
  · rw [changeList_LoopStatus_iff props _ hnd]
    rintro ⟨w, hw, hacc⟩
    cases w <;> simp [keyAccepted] at hacc
    rename_i s
    have hval : (UpdateProperties p props).1.LoopStatus = loopCoerce s := by
      rw [update_LoopStatus,
        foldUpd_mem "LoopStatus" lsVal props p.LoopStatus _ hnd hw]
      rfl
    exact hacc hval
  · intro v hmem hdict
    rw [changeList_Metadata_iff props _ hnd]
    exact ⟨v, hmem, hdict⟩

/-- Concrete instantiation of the C4 statement on a full valid batch. -/
theorem claim4_witness :
    "Shuffle" ∉
      (UpdateProperties (UpdateProperties stoppedProps batchFull).1 batchFull).2 ∧
    "Metadata" ∈
      (UpdateProperties (UpdateProperties stoppedProps batchFull).1 batchFull).2 := by
  have h := claim4_second_application stoppedProps batchFull (by decide)
  exact ⟨h.1, h.2.2.2 (DBusValue.dict []) (by simp [batchFull]) rfl⟩

/-- C10: applying a change batch with pairwise-distinct keys leaves every
state field whose key is absent from the batch unchanged, and the returned
change-set contains only names of keys present in the batch, each at most
once. -/
theorem claim10_frame_effect (p : Properties)
    (props : List (String × DBusValue)) (hnd : (props.map Prod.fst).Nodup) :
    ("Shuffle" ∉ props.map Prod.fst →
      (UpdateProperties p props).1.Shuffle = p.Shuffle) ∧
    ("PlaybackStatus" ∉ props.map Prod.fst →
      (UpdateProperties p props).1.PlaybackStatus = p.PlaybackStatus) ∧
    ("LoopStatus" ∉ props.map Prod.fst →
      (UpdateProperties p props).1.LoopStatus = p.LoopStatus) ∧
    ("Metadata" ∉ props.map Prod.fst →
      (UpdateProperties p props).1.Media = p.Media) ∧
    (∀ x ∈ (UpdateProperties p props).2, x ∈ props.map Prod.fst) ∧
    (UpdateProperties p props).2.Nodup := by
  refine ⟨?_, ?_, ?_, ?_, ?_, ?_⟩
  · intro h
    rw [update_Shuffle]
    exact foldUpd_absent "Shuffle" shVal props p.Shuffle h
  · intro h
    rw [update_PlaybackStatus]
    exact foldUpd_absent "PlaybackStatus" pbVal props p.PlaybackStatus h
  · intro h
    rw [update_LoopStatus]
    exact foldUpd_absent "LoopStatus" lsVal props p.LoopStatus h
  · intro h
    rw [update_Media]
    exact mediaFold_absent p.Media props h
  · intro x hx
    exact (changeList_sublist p props).subset hx
  · exact List.Nodup.sublist (changeList_sublist p props) hnd

/-- Concrete instantiation of the C10 statement: a `Shuffle`-only batch
leaves status, loop mode and metadata untouched and reports a duplicate-free
change-set drawn from the batch keys. -/
theorem claim10_witness :
    (UpdateProperties trackLoopProps [("Shuffle", DBusValue.bool' true)]).1.PlaybackStatus =
      trackLoopProps.PlaybackStatus ∧
    (UpdateProperties trackLoopProps [("Shuffle", DBusValue.bool' true)]).1.Media =
      trackLoopProps.Media ∧
    (UpdateProperties trackLoopProps [("Shuffle", DBusValue.bool' true)]).2.Nodup := by
  have h := claim10_frame_effect trackLoopProps
    [("Shuffle", DBusValue.bool' true)] (by decide)
  exact ⟨h.2.1 (by decide), h.2.2.2.1 (by decide), h.2.2.2.2.2⟩

/-- C1 counterexample: applying a batch whose `Metadata` value is a
well-shaped but empty key/value structure leaves the previously cached title
in place instead of resetting it to its zero value — the cached track record
is mutated in place, not replaced wholesale. -/
theorem claim1_counterexample :
    (UpdateProperties stalePlayer
        [("Metadata", DBusValue.dict [])]).1.Media.Title = "Old Song" ∧
    ¬ ((UpdateProperties stalePlayer
        [("Metadata", DBusValue.dict [])]).1.Media.Title = "") := by
  exact ⟨by decide, by decide⟩

/-- C1 amended: applying a change batch (distinct keys) whose `Metadata`
value is a well-shaped key/value structure decodes it into the cached track
record in place: every track field whose key is absent from the bag or
carries a value of the wrong dynamic type retains its value from the
previously cached track. -/
theorem claim1_metadata_updated_in_place (p : Properties)
    (props : List (String × DBusValue)) (hnd : (props.map Prod.fst).Nodup)
    (entries : List (String × DBusValue))
    (hmem : ("Metadata", DBusValue.dict entries) ∈ props) :
    ((∀ v, ("mpris:trackid", v) ∈ entries → DBusValue.asStr v = none) →
      (UpdateProperties p props).1.Media.ID = p.Media.ID) ∧
    ((∀ v, ("mpris:length", v) ∈ entries → lenVal v = none) →
      (UpdateProperties p props).1.Media.Length = p.Media.Length) ∧
    ((∀ v, ("mpris:artUrl", v) ∈ entries → DBusValue.asStr v = none) →
      (UpdateProperties p props).1.Media.ArtURL = p.Media.ArtURL) ∧
    ((∀ v, ("xesam:artist", v) ∈ entries → artistVal v = none) →
      (UpdateProperties p props).1.Media.Artist = p.Media.Artist) ∧
    ((∀ v, ("xesam:album", v) ∈ entries → DBusValue.asStr v = none) →
      (UpdateProperties p props).1.Media.Album = p.Media.Album) ∧
    ((∀ v, ("xesam:albumArtist", v) ∈ entries → DBusValue.asStr v = none) →
      (UpdateProperties p props).1.Media.AlbumArtist = p.Media.AlbumArtist) ∧
    ((∀ v, ("xesam:title", v) ∈ entries → DBusValue.asStr v = none) →
      (UpdateProperties p props).1.Media.Title = p.Media.Title) ∧
    ((∀ v, ("xesam:genre", v) ∈ entries → genreVal v = none) →
      (UpdateProperties p props).1.Media.Genre = p.Media.Genre) ∧
    ((∀ v, ("xesam:contentCreated", v) ∈ entries → yearVal v = none) →
      (UpdateProperties p props).1.Media.Year = p.Media.Year) ∧
    ((∀ v, ("xesam:url", v) ∈ entries → DBusValue.asStr v = none) →
      (UpdateProperties p props).1.Media.URL = p.Media.URL) := by
  have hMedia : (UpdateProperties p props).1.Media =
      List.foldl decodeEntry p.Media entries := by
    rw [update_Media,
      foldl_eq_step_of_mem (fun m kv => mediaApply m kv.1 kv.2) "Metadata"
        (fun b k v hk => mediaApply_ne b k v hk) props p.Media _ hnd hmem]
    simp [mediaApply]
  refine ⟨fun h => ?_, fun h => ?_, fun h => ?_, fun h => ?_, fun h => ?_,
    fun h => ?_, fun h => ?_, fun h => ?_, fun h => ?_, fun h => ?_⟩
  · rw [hMedia, decodeFold_ID]
    exact foldUpd_none _ _ entries _ h
  · rw [hMedia, decodeFold_Length]
    exact foldUpd_none _ _ entries _ h
  · rw [hMedia, decodeFold_ArtURL]
    exact foldUpd_none _ _ entries _ h
  · rw [hMedia, decodeFold_Artist]
    exact foldUpd_none _ _ entries _ h
  · rw [hMedia, decodeFold_Album]
    exact foldUpd_none _ _ entries _ h
  · rw [hMedia, decodeFold_AlbumArtist]
    exact foldUpd_none _ _ entries _ h
  · rw [hMedia, decodeFold_Title]
    exact foldUpd_none _ _ entries _ h
  · rw [hMedia, decodeFold_Genre]
    exact foldUpd_none _ _ entries _ h
  · rw [hMedia, decodeFold_Year]
    exact foldUpd_none _ _ entries _ h
  · rw [hMedia, decodeFold_URL]
    exact foldUpd_none _ _ entries _ h

/-- Concrete instantiation of the amended C1 statement: a metadata bag whose
title entry is mistyped (an integer) leaves the previously cached title in
place. -/
theorem claim1_witness :
    (UpdateProperties stalePlayer
        [("Metadata",
          DBusValue.dict [("xesam:title", DBusValue.int64 7)])]).1.Media.Title =
      "Old Song" := by
  have h := claim1_metadata_updated_in_place stalePlayer
    [("Metadata", DBusValue.dict [("xesam:title", DBusValue.int64 7)])]
    (by decide) [("xesam:title", DBusValue.int64 7)] (by simp)
  have ht := h.2.2.2.2.2.2.1
  refine (ht ?_).trans rfl
  intro v hv
  simp at hv
  subst hv
  rfl

/-- C9: whenever the creation-timestamp entry of a well-shaped metadata bag
is a string that parses as an RFC-3339 timestamp, the decoded release year
is the timestamp's calendar year narrowed two's-complement into the signed
8-bit range `-128..127`; when the entry is absent, mistyped, or fails to
parse, the year field of a record whose year starts at zero stays zero. -/
theorem claim9_release_year (entries : List (String × DBusValue)) (m0 : Media)
    (hnd : (entries.map Prod.fst).Nodup) :
    (∀ v y, ("xesam:contentCreated", DBusValue.str v) ∈ entries →
        parseRFC3339Year v = some y →
        Except.map Media.Year (decodeMetadata (DBusValue.dict entries) m0) =
          Except.ok (wrap8 y) ∧ -128 ≤ wrap8 y ∧ wrap8 y ≤ 127) ∧
    (m0.Year = 0 →
      (∀ v, ("xesam:contentCreated", v) ∈ entries → yearVal v = none) →
      Except.map Media.Year (decodeMetadata (DBusValue.dict entries) m0) =
        Except.ok 0) := by
  have hbase : Except.map Media.Year (decodeMetadata (DBusValue.dict entries) m0) =
      Except.ok (List.foldl decodeEntry m0 entries).Year := rfl
  constructor
  · intro v y hmem hy
    refine ⟨?_, (wrap8_bounds y).1, (wrap8_bounds y).2⟩
    rw [hbase, decodeFold_Year,
      foldUpd_mem "xesam:contentCreated" yearVal entries m0.Year _ hnd hmem]
    simp [yearVal, hy]
  · intro hz h
    rw [hbase, decodeFold_Year, foldUpd_none _ _ entries _ h, hz]

/-- Concrete instantiation of the C9 statement: year 2024 is stored as the
signed 8-bit value `-24`. -/
theorem claim9_witness :
    Except.map Media.Year (decodeMetadata (DBusValue.dict sampleMeta) {}) =
      Except.ok (-24) := by
  have h := ((claim9_release_year sampleMeta {} (by decide)).1
    "2024-06-01T12:00:00Z" 2024 (by simp [sampleMeta]) (by decide)).1
  rw [show wrap8 2024 = -24 from by decide] at h
  exact h

end Mpris
